import Mathlib

/-!
Verification of the intake token lifecycle of the rbmentors site:
the invitation issuer and the intake submission processor
(src/functions/api/intake/submit.ts, two handlers) and the session
validator (the onRequestGet handler).

Modelling conventions (shallow embedding):
* The D1 relational store is a record of lists of rows, one list per table.
  SQL SELECT ... LIMIT 1 is List.find? / List.findSome? (join), UPDATE ... WHERE
  is a conditional List.map, DELETE ... WHERE is a List.filter, INSERT is an
  append.
* JS values that the handlers read are typed as Option String (none for
  absent/null/undefined) except the three boolean-ish intake fields, which keep
  a small JS primitive type so that bool01 can be translated exactly.
  JS string truthiness (empty string is falsy) is the function truthy.
* Platform primitives are injected: sha256Hex is an arbitrary function
  parameter H (collision freedom is assumed through explicit hypotheses where a
  claim needs it); crypto.randomUUID is a counter-indexed generator uuid, with
  freshness hypotheses standing in for uuid uniqueness; the random raw token of
  generateToken is an explicit parameter. encodeURIComponent is the identity,
  which is exact on its actual inputs here: raw tokens are base64url strings,
  made only of URL-unreserved characters that encodeURIComponent keeps.
* Timestamps are epoch milliseconds (Int). Date.toISOString composed with
  Date.parse round-trips a valid timestamp and Date.parse is NaN on garbage;
  this pair is modelled by the injective serialization isoOfEpoch and the
  decoder dateParse (dateParse is none exactly on strings that are not in the
  image of isoOfEpoch, matching !Number.isFinite(Date.parse(s))).
  SQLite datetime(now) is isoOfEpoch of the current time.
-/

namespace RB

/-! ## JS value helpers -/

/-- String.prototype.trim modelled char-wise (drop whitespace from both
ends), kept structurally computable. -/
def jsTrim (s : String) : String :=
  String.mk (((s.toList.dropWhile Char.isWhitespace).reverse.dropWhile Char.isWhitespace).reverse)

/-- String.prototype.toLowerCase modelled char-wise, kept structurally
computable. -/
def jsToLower (s : String) : String := String.mk (s.toList.map Char.toLower)

/-- String.prototype.slice(-n) on a string, the trailing n characters, kept
structurally computable. -/
def strTakeRight (s : String) (n : Nat) : String :=
  String.mk ((s.toList.reverse.take n).reverse)

/-- JS truthiness of a string-or-nullish value: null, undefined and the empty
string are falsy, every other string is truthy. -/
def truthy : Option String → Bool
  | none => false
  | some s => s ≠ ""

/-- A small JS primitive value, for the fields fed to bool01. -/
inductive JsPrim where
  | jsbool (b : Bool)
  | jsnum (n : Int)
  | jsstr (s : String)
  | jsnull
deriving Repr, DecidableEq

/-- bool01 from submit.ts: v === true || v === 1 || v === "1" || v === "true" ? 1 : 0. -/
def bool01 : JsPrim → Int
  | .jsbool true => 1
  | .jsnum n => if n == 1 then 1 else 0
  | .jsstr s => if s == "1" || s == "true" then 1 else 0
  | _ => 0

/-- crypto.randomUUID modelled as a counter-indexed generator; uniqueness of
UUIDs is assumed through explicit freshness hypotheses in the theorems. -/
def uuid (n : Nat) : String := "uuid-" ++ toString n

/-! ## Timestamp serialization (Date.toISOString / Date.parse model) -/

/-- Little-endian decimal digit encoding of a natural number (empty for 0),
with a structural fuel argument so that the definition computes by reduction;
fuel n suffices for the number n itself. -/
def natCharsAux : Nat → Nat → List Char
  | _, 0 => []
  | 0, _ + 1 => []
  | fuel + 1, n + 1 => Nat.digitChar ((n + 1) % 10) :: natCharsAux fuel ((n + 1) / 10)

/-- Little-endian decimal digit encoding of a natural number (empty for 0). -/
def natChars (n : Nat) : List Char := natCharsAux n n

/-- Decoder for natChars; none if a non-digit character appears. -/
def charsNat : List Char → Option Nat
  | [] => some 0
  | c :: rest =>
    if c.isDigit then
      (charsNat rest).map (fun m => (c.toNat - ('0').toNat) + 10 * m)
    else none

/-- Serialization of an epoch-millisecond timestamp, standing in for
Date.toISOString (an injective printable form with a total decoder). -/
def isoOfEpoch (t : Int) : String :=
  if t < 0 then String.mk ('@' :: '-' :: natChars t.natAbs)
  else String.mk ('@' :: '+' :: natChars t.natAbs)

/-- Date.parse model: some epoch value on well-formed timestamps, none
(standing for NaN) on anything else. -/
def dateParse (s : String) : Option Int :=
  match s.toList with
  | '@' :: '-' :: rest => (charsNat rest).map (fun n => -(n : Int))
  | '@' :: '+' :: rest => (charsNat rest).map (fun n => (n : Int))
  | _ => none

/-! ## Row types: one structure per table of the D1 schema, with the columns
the two handlers read or write. -/

structure ClientRow where
  id : String
  first_name : String
  last_name : String
  email : String
  mobile : Option String
  occupation : Option String
  locale : String
  ssn_last4 : String
  created_at : String
  updated_at : String
deriving Repr, DecidableEq

structure TaxReturnRow where
  id : String
  client_id : String
  tax_year : Int
  status : String
  submitted_at : Option String
  created_at : String
  updated_at : String
deriving Repr, DecidableEq

structure IntakeTokenRow where
  id : String
  tax_return_id : String
  token_hash : String
  expires_at : String
  one_time : Int
  used_at : Option String
  revoked_at : Option String
  created_at : String
deriving Repr, DecidableEq

structure IntakeRow where
  id : String
  tax_return_id : String
  filing_status : String
  taxpayer_first_name : String
  taxpayer_last_name : String
  taxpayer_ssn : String
  taxpayer_dob : String
  taxpayer_occupation : Option String
  taxpayer_email : String
  taxpayer_mobile : Option String
  address_line1 : String
  address_line2 : Option String
  city : String
  state : String
  zip : String
  had_health_insurance : Int
  digital_assets : Int
  bank_name : Option String
  bank_routing : Option String
  bank_account : Option String
  bank_account_type : Option String
  was_referred : Int
  referrer_first_name : Option String
  referrer_last_name : Option String
  created_at : String
  updated_at : String
deriving Repr, DecidableEq

structure SpouseRow where
  id : String
  tax_return_id : String
  first_name : String
  last_name : String
  ssn : String
  dob : String
  occupation : Option String
  email : Option String
  mobile : Option String
  created_at : String
  updated_at : String
deriving Repr, DecidableEq

structure DependentRow where
  id : String
  tax_return_id : String
  first_name : String
  last_name : String
  ssn : Option String
  dob : String
  relationship : String
  created_at : String
deriving Repr, DecidableEq

structure AuditRow where
  id : String
  tax_return_id : String
  event : String
  ip : Option String
  user_agent : Option String
  details_json : String
  created_at : String
deriving Repr, DecidableEq

/-- The persistent store: the tables of the D1 database that the intake
subsystem touches. -/
structure DB where
  clients : List ClientRow
  tax_returns : List TaxReturnRow
  intake_tokens : List IntakeTokenRow
  intakes : List IntakeRow
  spouses : List SpouseRow
  dependents : List DependentRow
  audit_log : List AuditRow
deriving Repr, DecidableEq

/-! ## Request payloads -/

/-- The spouse object of the submission body (all fields optional JS values). -/
structure SpousePayload where
  first_name : Option String
  last_name : Option String
  ssn : Option String
  dob : Option String
  occupation : Option String
  email : Option String
  mobile : Option String
deriving Repr, DecidableEq

/-- One entry of the dependents array of the submission body. -/
structure DependentPayload where
  first_name : Option String
  last_name : Option String
  ssn : Option String
  dob : Option String
  relationship : Option String
deriving Repr, DecidableEq

/-- The JSON body of the intake submission request, as destructured by the
submit handler. -/
structure SubmitBody where
  filing_status : Option String
  taxpayer_first_name : Option String
  taxpayer_last_name : Option String
  taxpayer_ssn : Option String
  taxpayer_dob : Option String
  taxpayer_occupation : Option String
  taxpayer_email : Option String
  taxpayer_mobile : Option String
  address_line1 : Option String
  address_line2 : Option String
  city : Option String
  state : Option String
  zip : Option String
  had_health_insurance : JsPrim
  digital_assets : JsPrim
  bank_name : Option String
  bank_routing : Option String
  bank_account : Option String
  bank_account_type : Option String
  was_referred : JsPrim
  referrer_first_name : Option String
  referrer_last_name : Option String
  spouse : Option SpousePayload
  dependents : Option (List DependentPayload)
deriving Repr, DecidableEq

/-- The JSON body of the invitation request, as destructured by the invite
handler (none models an absent field, so that the JS destructuring defaults
locale = "es", expires_in_hours = 72, one_time = true apply). -/
structure InviteBody where
  tax_year : Option Int
  locale : Option String
  first_name : Option String
  last_name : Option String
  email : Option String
  mobile : Option String
  occupation : Option String
  expires_in_hours : Option Int
  one_time : Option Bool
deriving Repr, DecidableEq

/-! ## Results -/

/-- Outcome of the submit endpoint: json({error, ...}, status) or
json({ok: true, tax_return_id}, 200). -/
inductive SubmitRes where
  | err (msg : String) (status : Nat)
  | ok (tax_return_id : String)
deriving Repr, DecidableEq

/-- The success payload of the session validator. -/
structure SessionData where
  tax_return_id : String
  tax_year : Int
  locale : String
  client_first_name : String
  client_last_name : String
  client_email : String
  client_mobile : Option String
  expires_at : String
  one_time : Bool
deriving Repr, DecidableEq

/-- Outcome of the session validator endpoint. -/
inductive SessionRes where
  | err (msg : String) (status : Nat)
  | ok (d : SessionData)
deriving Repr, DecidableEq

/-- The success payload of the invite endpoint. -/
structure InviteData where
  intake_url : String
  tax_return_id : String
  expires_at : String
  one_time : Bool
deriving Repr, DecidableEq

/-- Outcome of the invite endpoint. -/
inductive InviteRes where
  | err (msg : String) (status : Nat)
  | ok (d : InviteData)
deriving Repr, DecidableEq

/-- Tax-return id of a successful session validation, none on error. -/
def SessionRes.taxReturnId? : SessionRes → Option String
  | .ok d => some d.tax_return_id
  | .err _ _ => none

/-- Tax-return id of a successful invitation, none on error. -/
def InviteRes.taxReturnId? : InviteRes → Option String
  | .ok d => some d.tax_return_id
  | .err _ _ => none

/-! ## Shared query helpers -/

/-- The token query of the submit handler: SELECT ... FROM intake_tokens it
JOIN tax_returns tr ON tr.id = it.tax_return_id WHERE it.token_hash = ?
LIMIT 1. -/
def tokenLookup (H : String → String) (pepper tok : String) (db : DB) :
    Option (IntakeTokenRow × TaxReturnRow) :=
  let tokenHash := H (tok ++ pepper)
  db.intake_tokens.findSome? (fun it =>
    if it.token_hash == tokenHash then
      (db.tax_returns.find? (fun tr => tr.id == it.tax_return_id)).map (fun tr => (it, tr))
    else none)

/-- The token query of the session handler: same join extended to the clients
table (JOIN clients c ON c.id = tr.client_id). -/
def sessionLookup (H : String → String) (pepper tok : String) (db : DB) :
    Option (IntakeTokenRow × TaxReturnRow × ClientRow) :=
  let tokenHash := H (tok ++ pepper)
  db.intake_tokens.findSome? (fun it =>
    if it.token_hash == tokenHash then
      (db.tax_returns.find? (fun tr => tr.id == it.tax_return_id)).bind (fun tr =>
        (db.clients.find? (fun c => c.id == tr.client_id)).map (fun c => (it, tr, c)))
    else none)

/-! ## Intake submission processor (the submit onRequestPost handler) -/

/-- String.replace(/\D/g, "") of the submit handler: keep only digits. -/
def digitsOnly (s : String) : String := String.mk (s.toList.filter Char.isDigit)

/-- SSN redaction of submit step 2: strip non-digits, take the trailing four
digits, default "0000" when fewer than four digits are present. -/
def ssnLast4 (s : String) : String :=
  let ds := digitsOnly s
  if ds.length ≥ 4 then strTakeRight ds 4 else "0000"

/-- Structural payload validation of the submit handler (the six checks in
source order, each with its literal error message and status 400). -/
def validatePayload (b : SubmitBody) : Option (String × Nat) :=
  if !truthy b.filing_status then some (("filing_status is required", 400))
  else if !truthy b.taxpayer_first_name || !truthy b.taxpayer_last_name then
    some (("taxpayer name required", 400))
  else if !truthy b.taxpayer_ssn then some (("taxpayer_ssn required", 400))
  else if !truthy b.taxpayer_dob then some (("taxpayer_dob required", 400))
  else if !truthy b.taxpayer_email then some (("taxpayer_email required", 400))
  else if !truthy b.address_line1 || !truthy b.city || !truthy b.state || !truthy b.zip then
    some (("address required", 400))
  else none

/-- The per-row effect of the UPDATE clients statement of submit step 2. -/
def clientSubmitUpd (b : SubmitBody) (clientId : String) : ClientRow → ClientRow :=
  fun c =>
    if c.id == clientId then
      { c with
        ssn_last4 := ssnLast4 (b.taxpayer_ssn.getD (""))
        first_name := jsTrim (b.taxpayer_first_name.getD (""))
        last_name := jsTrim (b.taxpayer_last_name.getD (""))
        email := jsToLower (jsTrim (b.taxpayer_email.getD ("")))
        mobile := b.taxpayer_mobile
        occupation := b.taxpayer_occupation }
    else c

/-- Submit step 2: UPDATE clients SET ssn_last4, names, email, mobile,
occupation WHERE id = clientId. -/
def updateClientOnSubmit (b : SubmitBody) (clientId : String)
    (clients : List ClientRow) : List ClientRow :=
  clients.map (clientSubmitUpd b clientId)

/-- The per-row effect of the UPDATE tax_returns statement of submit step 6. -/
def markSubmitted (now : Int) (trid : String) : TaxReturnRow → TaxReturnRow :=
  fun r =>
    if r.id == trid then
      { r with status := ("submitted"), submitted_at := some (isoOfEpoch now) }
    else r

/-- The per-row effect of the UPDATE intake_tokens statement of submit step 6. -/
def markUsed (now : Int) (th : String) : IntakeTokenRow → IntakeTokenRow :=
  fun t =>
    if t.token_hash == th then { t with used_at := some (isoOfEpoch now) } else t

/-- The intakes row built from the submission body (used by the INSERT branch
of step 3; the UPDATE branch writes the same fields keeping id/created_at). -/
def intakeRowOfBody (now : Int) (intakeId trid : String) (b : SubmitBody) : IntakeRow :=
  { id := intakeId
    tax_return_id := trid
    filing_status := b.filing_status.getD ("")
    taxpayer_first_name := b.taxpayer_first_name.getD ("")
    taxpayer_last_name := b.taxpayer_last_name.getD ("")
    taxpayer_ssn := b.taxpayer_ssn.getD ("")
    taxpayer_dob := b.taxpayer_dob.getD ("")
    taxpayer_occupation := b.taxpayer_occupation
    taxpayer_email := b.taxpayer_email.getD ("")
    taxpayer_mobile := b.taxpayer_mobile
    address_line1 := b.address_line1.getD ("")
    address_line2 := b.address_line2
    city := b.city.getD ("")
    state := b.state.getD ("")
    zip := b.zip.getD ("")
    had_health_insurance := bool01 b.had_health_insurance
    digital_assets := bool01 b.digital_assets
    bank_name := b.bank_name
    bank_routing := b.bank_routing
    bank_account := b.bank_account
    bank_account_type := b.bank_account_type
    was_referred := bool01 b.was_referred
    referrer_first_name := b.referrer_first_name
    referrer_last_name := b.referrer_last_name
    created_at := isoOfEpoch now
    updated_at := isoOfEpoch now }

/-- Submit step 3: if an intakes row exists for the tax return, UPDATE all its
payload fields (and updated_at), else INSERT a fresh row. -/
def upsertIntake (now : Int) (b : SubmitBody) (intakeId trid : String)
    (intakes : List IntakeRow) : List IntakeRow :=
  match intakes.find? (fun i => i.tax_return_id == trid) with
  | none => intakes ++ [intakeRowOfBody now intakeId trid b]
  | some _ =>
    intakes.map (fun i =>
      if i.tax_return_id == trid then
        { intakeRowOfBody now intakeId trid b with id := i.id, created_at := i.created_at }
      else i)

/-- The filing statuses that require a spouse in the submit handler. -/
def needsSpouse (fs : String) : Bool := fs == "married_joint" || fs == "married_separate"

/-- The spouse required-field check of submit step 4 (true when a required
field is missing under JS truthiness). -/
def spouseMissing (s : SpousePayload) : Bool :=
  !truthy s.first_name || !truthy s.last_name || !truthy s.ssn || !truthy s.dob

/-- Submit step 4: spouse upsert when a married filing status and a spouse
object are both present (failing with status 400 when required spouse fields
are missing), and spouse row deletion otherwise. Returns the new spouses
table and the advanced uuid counter. -/
def spouseStep (now : Int) (b : SubmitBody) (trid : String) (g : Nat)
    (spouses : List SpouseRow) : Except (String × Nat) (List SpouseRow × Nat) :=
  let fs := b.filing_status.getD ("")
  match b.spouse with
  | some s =>
    if needsSpouse fs then
      if spouseMissing s then
        .error (("spouse fields required for married filing status", 400))
      else
        match spouses.find? (fun r => r.tax_return_id == trid) with
        | none =>
          .ok ((spouses ++ [{ id := uuid g
                              tax_return_id := trid
                              first_name := s.first_name.getD ("")
                              last_name := s.last_name.getD ("")
                              ssn := s.ssn.getD ("")
                              dob := s.dob.getD ("")
                              occupation := s.occupation
                              email := s.email
                              mobile := s.mobile
                              created_at := isoOfEpoch now
                              updated_at := isoOfEpoch now }], g + 1))
        | some _ =>
          .ok ((spouses.map (fun r =>
            if r.tax_return_id == trid then
              { r with
                first_name := s.first_name.getD ("")
                last_name := s.last_name.getD ("")
                ssn := s.ssn.getD ("")
                dob := s.dob.getD ("")
                occupation := s.occupation
                email := s.email
                mobile := s.mobile
                updated_at := isoOfEpoch now }
            else r), g))
    else .ok ((spouses.filter (fun r => !(r.tax_return_id == trid)), g))
  | none => .ok ((spouses.filter (fun r => !(r.tax_return_id == trid)), g))

/-- The qualifying check of submit step 5: a dependent entry is inserted only
when first name, last name, relationship and dob are all truthy. -/
def depQualifies (d : DependentPayload) : Bool :=
  truthy d.first_name && truthy d.last_name && truthy d.relationship && truthy d.dob

/-- The insert loop of submit step 5: one INSERT per qualifying entry, in
order, skipping the rest silently. -/
def insertDependents (now : Int) (trid : String) : List DependentPayload → Nat →
    List DependentRow → List DependentRow × Nat
  | [], g, rows => (rows, g)
  | d :: rest, g, rows =>
    if depQualifies d then
      insertDependents now trid rest (g + 1)
        (rows ++ [{ id := uuid g
                    tax_return_id := trid
                    first_name := d.first_name.getD ("")
                    last_name := d.last_name.getD ("")
                    ssn := d.ssn
                    dob := d.dob.getD ("")
                    relationship := d.relationship.getD ("")
                    created_at := isoOfEpoch now }])
    else insertDependents now trid rest g rows

/-- Submit step 5: DELETE all dependents of the tax return, then insert the
qualifying submitted entries (only when the dependents field is an array). -/
def dependentsStep (now : Int) (b : SubmitBody) (trid : String) (g : Nat)
    (deps : List DependentRow) : List DependentRow × Nat :=
  let kept := deps.filter (fun r => !(r.tax_return_id == trid))
  match b.dependents with
  | some l => insertDependents now trid l g kept
  | none => (kept, g)

/-- Submit steps 2-7, run after the payload and token checks passed: client
update, intake upsert, spouse step (the only remaining failure point), the
dependents replace-all, the status transition, the conditional token
consumption and the audit append. Each SQL statement reads and writes its own
table of the incoming store. -/
def performSubmit (now : Int) (g : Nat) (tokenHash : String) (b : SubmitBody)
    (row : IntakeTokenRow) (tr : TaxReturnRow) (ip ua : Option String)
    (db : DB) : SubmitRes × DB :=
  let taxReturnId := row.tax_return_id
  let clientId := tr.client_id
  let clients1 := updateClientOnSubmit b clientId db.clients
  let intakeId := uuid g
  let g := g + 1
  let intakes1 := upsertIntake now b intakeId taxReturnId db.intakes
  let db2 : DB := { db with clients := clients1, intakes := intakes1 }
  match spouseStep now b taxReturnId g db.spouses with
  | .error e => (.err e.1 e.2, db2)
  | .ok (spouses1, g) =>
    let (deps1, g) := dependentsStep now b taxReturnId g db.dependents
    let taxReturns1 := db.tax_returns.map (markSubmitted now taxReturnId)
    let tokens1 :=
      if row.one_time == 1 then db.intake_tokens.map (markUsed now tokenHash)
      else db.intake_tokens
    let audit1 := db.audit_log ++ [{ id := uuid g
                                     tax_return_id := taxReturnId
                                     event := ("intake_submitted")
                                     ip := ip
                                     user_agent := ua
                                     details_json := "\x7b\"tax_year\":" ++ toString tr.tax_year ++ "\x7d"
                                     created_at := isoOfEpoch now }]
    (.ok taxReturnId,
      { db2 with
        spouses := spouses1
        dependents := deps1
        tax_returns := taxReturns1
        intake_tokens := tokens1
        audit_log := audit1 })

namespace Submit

/-- The intake submission endpoint (onRequestPost of submit.ts): missing
token / pepper / body checks, structural payload validation, the token
lookup with its revocation, expiry and one-time-used checks, then the
mutation sequence of performSubmit. -/
def onRequestPost (H : String → String) (pepper : String) (now : Int) (g : Nat)
    (token : Option String) (body : Option SubmitBody) (ip ua : Option String)
    (db : DB) : SubmitRes × DB :=
  match token with
  | none => (.err ("Missing token") 400, db)
  | some tok =>
    if pepper == "" then (.err ("Server misconfigured: TOKEN_PEPPER missing") 500, db)
    else match body with
    | none => (.err ("Invalid JSON body") 400, db)
    | some b =>
      match validatePayload b with
      | some e => (.err e.1 e.2, db)
      | none =>
        let tokenHash := H (tok ++ pepper)
        match tokenLookup H pepper tok db with
        | none => (.err ("Invalid token") 401, db)
        | some (row, tr) =>
          if truthy row.revoked_at then (.err ("Token revoked") 401, db)
          else match dateParse row.expires_at with
          | none => (.err ("Token expired") 401, db)
          | some e =>
            if now > e then (.err ("Token expired") 401, db)
            else if row.one_time == 1 && truthy row.used_at then
              (.err ("Token already used") 401, db)
            else performSubmit now g tokenHash b row tr ip ua db

end Submit

namespace Session

/-- The session validator endpoint (onRequestGet): the joined token lookup,
the revocation, expiry and one-time-used checks, the lazy invited to
in_progress status transition, and the prefill payload. -/
def onRequestGet (H : String → String) (pepper : String) (now : Int)
    (token : Option String) (db : DB) : SessionRes × DB :=
  match token with
  | none => (.err ("Missing token") 400, db)
  | some tok =>
    if pepper == "" then (.err ("Server misconfigured: TOKEN_PEPPER missing") 500, db)
    else match sessionLookup H pepper tok db with
    | none => (.err ("Invalid token") 401, db)
    | some (row, tr, c) =>
      if truthy row.revoked_at then (.err ("Token revoked") 401, db)
      else match dateParse row.expires_at with
      | none => (.err ("Token expired") 401, db)
      | some e =>
        if now > e then (.err ("Token expired") 401, db)
        else if row.one_time == 1 && truthy row.used_at then
          (.err ("Token already used") 401, db)
        else
          let db1 :=
            if tr.status == "invited" then
              { db with tax_returns := db.tax_returns.map (fun r =>
                  if r.id == row.tax_return_id then { r with status := ("in_progress") } else r) }
            else db
          (.ok { tax_return_id := row.tax_return_id
                 tax_year := tr.tax_year
                 locale := c.locale
                 client_first_name := c.first_name
                 client_last_name := c.last_name
                 client_email := c.email
                 client_mobile := c.mobile
                 expires_at := row.expires_at
                 one_time := row.one_time == 1 }, db1)

end Session

/-! ## Invitation issuer (the invite onRequestPost handler) -/

/-- The non-destructive client refresh of the invite handler:
UPDATE clients SET first_name = COALESCE(NULLIF(?, ''), first_name), ... with
the name and locale parameters guarded by NULLIF against the empty string and
mobile/occupation guarded only by COALESCE against null. -/
def clientMerge (firstNameIn lastNameIn : String) (mobileIn occupationIn : Option String)
    (localeIn : String) (c : ClientRow) : ClientRow :=
  { c with
    first_name := if firstNameIn == "" then c.first_name else firstNameIn
    last_name := if lastNameIn == "" then c.last_name else lastNameIn
    mobile := match mobileIn with
              | none => c.mobile
              | some v => some v
    occupation := match occupationIn with
                  | none => c.occupation
                  | some v => some v
    locale := if localeIn == "" then c.locale else localeIn }

/-- JS || with a string default: the default replaces null, undefined and the
empty string. -/
def jsOrDefault (v : Option String) (dflt : String) : String :=
  if truthy v then v.getD ("") else dflt

/-- String.replace(/\/+$/, "") of the invite handler: drop trailing slashes. -/
def stripTrailingSlashes (s : String) : String :=
  String.mk ((s.toList.reverse.dropWhile (fun c => c == '/')).reverse)

/-- Invite steps 2-5, run with the client id resolved: find-or-create the tax
return for (client, year), insert the freshly minted token row, build the
intake URL (encodeURIComponent is the identity on base64url tokens) and
append the invite_created audit event. -/
def inviteAfterClient (now : Int) (g : Nat) (rawToken tokenHash expIso : String)
    (oneTime : Bool) (taxYear : Int) (locale : String) (expiresInHours : Int)
    (siteOrigin : Option String) (clientId : String) (ip ua : Option String)
    (db : DB) : InviteRes × DB :=
  let found := db.tax_returns.find? (fun r => r.client_id == clientId && r.tax_year == taxYear)
  let taxReturnId := match found with
                     | some r => r.id
                     | none => uuid g
  let g := match found with
           | some _ => g
           | none => g + 1
  let taxReturns1 := match found with
                     | some _ => db.tax_returns
                     | none => db.tax_returns ++ [{ id := taxReturnId
                                                    client_id := clientId
                                                    tax_year := taxYear
                                                    status := ("invited")
                                                    submitted_at := none
                                                    created_at := isoOfEpoch now
                                                    updated_at := isoOfEpoch now }]
  let tokens1 := db.intake_tokens ++ [{ id := uuid g
                                        tax_return_id := taxReturnId
                                        token_hash := tokenHash
                                        expires_at := expIso
                                        one_time := if oneTime then 1 else 0
                                        used_at := none
                                        revoked_at := none
                                        created_at := isoOfEpoch now }]
  let g := g + 1
  let origin := stripTrailingSlashes (jsOrDefault siteOrigin ("https://rbmentors.com"))
  let intakePath := if locale == "en" then "/en/intake" else "/es/intake"
  let intakeUrl := origin ++ intakePath ++ "?t=" ++ rawToken
  let audit1 := db.audit_log ++ [{ id := uuid g
                                   tax_return_id := taxReturnId
                                   event := ("invite_created")
                                   ip := ip
                                   user_agent := ua
                                   details_json := "\x7b\"locale\":\"" ++ locale
                                     ++ "\",\"tax_year\":" ++ toString taxYear
                                     ++ ",\"expires_in_hours\":" ++ toString expiresInHours
                                     ++ ",\"one_time\":" ++ (if oneTime then "true" else "false")
                                     ++ "\x7d"
                                   created_at := isoOfEpoch now }]
  (.ok { intake_url := intakeUrl
         tax_return_id := taxReturnId
         expires_at := expIso
         one_time := oneTime },
    { db with tax_returns := taxReturns1, intake_tokens := tokens1, audit_log := audit1 })

namespace Invite

/-- The invitation endpoint (onRequestPost of the invite handler): input
validation, find-or-create of the client by normalized email with the
non-destructive merge, then the tax-return/token/URL/audit steps of
inviteAfterClient. The raw random token of generateToken(32) is the injected
parameter rawToken. -/
def onRequestPost (H : String → String) (pepper : String) (now : Int) (g : Nat)
    (rawToken : String) (siteOrigin : Option String) (body : Option InviteBody)
    (ip ua : Option String) (db : DB) : InviteRes × DB :=
  match body with
  | none => (.err ("Invalid JSON body") 400, db)
  | some b =>
    let locale := b.locale.getD ("es")
    let expiresInHours := b.expires_in_hours.getD 72
    let oneTime := b.one_time.getD true
    match b.tax_year with
    | none => (.err ("tax_year is required (number)") 400, db)
    | some taxYear =>
      if taxYear == 0 then (.err ("tax_year is required (number)") 400, db)
      else if !truthy b.first_name || !truthy b.last_name then
        (.err ("first_name and last_name are required") 400, db)
      else if !truthy b.email then (.err ("email is required") 400, db)
      else if !(locale == "es" || locale == "en") then
        (.err ("locale must be \x27es\x27 or \x27en\x27") 400, db)
      else if pepper == "" then
        (.err ("Server misconfigured: TOKEN_PEPPER missing") 500, db)
      else
        let cleanEmail := jsToLower (jsTrim (b.email.getD ("")))
        let expIso := isoOfEpoch (now + expiresInHours * 3600000)
        let tokenHash := H (rawToken ++ pepper)
        match db.clients.find? (fun c => c.email == cleanEmail) with
        | some c =>
          let clients1 := db.clients.map (fun x =>
            if x.id == c.id then
              clientMerge (jsTrim (b.first_name.getD (""))) (jsTrim (b.last_name.getD ("")))
                b.mobile b.occupation locale x
            else x)
          inviteAfterClient now g rawToken tokenHash expIso oneTime taxYear locale
            expiresInHours siteOrigin c.id ip ua { db with clients := clients1 }
        | none =>
          let clientId := uuid g
          let clients1 := db.clients ++ [{ id := clientId
                                           first_name := jsTrim (b.first_name.getD (""))
                                           last_name := jsTrim (b.last_name.getD (""))
                                           email := cleanEmail
                                           mobile := b.mobile
                                           occupation := b.occupation
                                           locale := locale
                                           ssn_last4 := ("0000")
                                           created_at := isoOfEpoch now
                                           updated_at := isoOfEpoch now }]
          inviteAfterClient now (g + 1) rawToken tokenHash expIso oneTime taxYear locale
            expiresInHours siteOrigin clientId ip ua { db with clients := clients1 }

end Invite

/-- The dependent rows that the insert loop of submit step 5 produces from a
payload list, starting at uuid counter g (specification companion of
insertDependents). -/
def mkDepRows (now : Int) (trid : String) : List DependentPayload → Nat → List DependentRow
  | [], _ => []
  | d :: rest, g =>
    if depQualifies d then
      { id := uuid g
        tax_return_id := trid
        first_name := d.first_name.getD ("")
        last_name := d.last_name.getD ("")
        ssn := d.ssn
        dob := d.dob.getD ("")
        relationship := d.relationship.getD ("")
        created_at := isoOfEpoch now } :: mkDepRows now trid rest (g + 1)
    else mkDepRows now trid rest g

/-- The identity-free content of a stored dependent row. -/
def depFields (r : DependentRow) : String × String × Option String × String × String :=
  (r.first_name, r.last_name, r.ssn, r.dob, r.relationship)

/-- The content a qualifying dependent payload entry is stored with. -/
def payloadFields (d : DependentPayload) : String × String × Option String × String × String :=
  (d.first_name.getD (""), d.last_name.getD (""), d.ssn, d.dob.getD (""), d.relationship.getD (""))

/-! ## Concrete fixtures, used by the witness and counterexample theorems -/

/-- A collision-free stand-in for the salted hash function. -/
def hashId : String → String := fun s => s

/-- A sample client row. -/
def cClient : ClientRow :=
  { id := "c1"
    first_name := "Ana"
    last_name := "Bell"
    email := "a@x.com"
    mobile := some ("555")
    occupation := none
    locale := "en"
    ssn_last4 := "0000"
    created_at := "t0"
    updated_at := "t0" }

/-- A sample tax return in the invited state. -/
def cTaxReturn : TaxReturnRow :=
  { id := "tr1"
    client_id := "c1"
    tax_year := 2025
    status := "invited"
    submitted_at := none
    created_at := "t0"
    updated_at := "t0" }

/-- A live one-time token for cTaxReturn: with hashId and pepper "p" it is the
hash of the raw token "tok", expiring at epoch 100. -/
def cToken : IntakeTokenRow :=
  { id := "t1"
    tax_return_id := "tr1"
    token_hash := "tokp"
    expires_at := isoOfEpoch 100
    one_time := 1
    used_at := none
    revoked_at := none
    created_at := "t0" }

/-- A store holding the sample client, return and live token. -/
def cDb : DB :=
  { clients := [cClient]
    tax_returns := [cTaxReturn]
    intake_tokens := [cToken]
    intakes := []
    spouses := []
    dependents := []
    audit_log := [] }

/-- A structurally valid single-filer submission body. -/
def cBody : SubmitBody :=
  { filing_status := some ("single")
    taxpayer_first_name := some ("Ana")
    taxpayer_last_name := some ("Bell")
    taxpayer_ssn := some ("123-45-6789")
    taxpayer_dob := some ("1990-01-01")
    taxpayer_occupation := none
    taxpayer_email := some ("a@x.com")
    taxpayer_mobile := none
    address_line1 := some ("1 Main St")
    address_line2 := none
    city := some ("Miami")
    state := some ("FL")
    zip := some ("33101")
    had_health_insurance := .jsnull
    digital_assets := .jsnull
    bank_name := none
    bank_routing := none
    bank_account := none
    bank_account_type := none
    was_referred := .jsnull
    referrer_first_name := none
    referrer_last_name := none
    spouse := none
    dependents := none }

/-- The store produced by a fully successful submission (the explicit form of
the record built by performSubmit when the spouse step returns ok with new
spouses table sp1 and counter g1). -/
def submitOkDB (now : Int) (g : Nat) (th : String) (b : SubmitBody)
    (row : IntakeTokenRow) (tr : TaxReturnRow) (ip ua : Option String)
    (db : DB) (sp1 : List SpouseRow) (g1 : Nat) : DB :=
  { clients := updateClientOnSubmit b tr.client_id db.clients
    tax_returns := db.tax_returns.map (markSubmitted now row.tax_return_id)
    intake_tokens :=
      if row.one_time == 1 then db.intake_tokens.map (markUsed now th)
      else db.intake_tokens
    intakes := upsertIntake now b (uuid g) row.tax_return_id db.intakes
    spouses := sp1
    dependents := (dependentsStep now b row.tax_return_id g1 db.dependents).1
    audit_log := db.audit_log ++
      [{ id := uuid (dependentsStep now b row.tax_return_id g1 db.dependents).2
         tax_return_id := row.tax_return_id
         event := ("intake_submitted")
         ip := ip
         user_agent := ua
         details_json := "\x7b\"tax_year\":" ++ toString tr.tax_year ++ "\x7d"
         created_at := isoOfEpoch now }] }

/-- The submission bodies on which submit step 4 cannot fail: either no spouse
object, or a non-married filing status, or a complete spouse object. -/
def spouseOk (b : SubmitBody) : Bool :=
  match b.spouse with
  | some s => !(needsSpouse (b.filing_status.getD ("")) && spouseMissing s)
  | none => true

/-- A spouse object missing last name, SSN and DOB. -/
def cBadSpouse : SpousePayload :=
  { first_name := some ("Eva")
    last_name := none
    ssn := none
    dob := none
    occupation := none
    email := none
    mobile := none }

/-- A married-joint submission carrying the incomplete spouse object. -/
def cBodyMarriedBadSpouse : SubmitBody :=
  { cBody with filing_status := some ("married_joint"), spouse := some cBadSpouse }

/-- A married-joint submission with no spouse object at all. -/
def cBodyMarriedNoSpouse : SubmitBody :=
  { cBody with filing_status := some ("married_joint") }

/-- A pre-existing spouse row for cTaxReturn. -/
def cOldSpouse : SpouseRow :=
  { id := "s1"
    tax_return_id := "tr1"
    first_name := "Old"
    last_name := "Spouse"
    ssn := "111-22-3333"
    dob := "1989-09-09"
    occupation := none
    email := none
    mobile := none
    created_at := "t0"
    updated_at := "t0" }

/-- The fixture store with a pre-existing spouse row. -/
def cDbWithSpouse : DB := { cDb with spouses := [cOldSpouse] }

/-- The fixture token revoked (and, with its stored expiry of epoch 100, also
expired at any later instant). -/
def cTokenRevoked : IntakeTokenRow := { cToken with revoked_at := some ("r1") }

/-- The fixture store holding only the revoked token. -/
def cDbRevoked : DB := { cDb with intake_tokens := [cTokenRevoked] }

/-- The fixture token revoked and carrying an unparseable expiry string. -/
def cTokenRevokedGarbage : IntakeTokenRow :=
  { cToken with revoked_at := some ("r1"), expires_at := "garbage" }

/-- The fixture store holding the revoked malformed-expiry token. -/
def cDbRevokedGarbage : DB := { cDb with intake_tokens := [cTokenRevokedGarbage] }

/-- The fixture token with an unparseable expiry string and no revocation. -/
def cTokenGarbage : IntakeTokenRow := { cToken with expires_at := "garbage" }

/-- The fixture store holding the malformed-expiry token. -/
def cDbGarbage : DB := { cDb with intake_tokens := [cTokenGarbage] }

/-- The fixture token already used (its stored expiry of epoch 100 is in the
past at instant 200). -/
def cTokenExpUsed : IntakeTokenRow := { cToken with used_at := some ("u1") }

/-- The fixture store holding the used (and by 200 expired) token. -/
def cDbExpUsed : DB := { cDb with intake_tokens := [cTokenExpUsed] }

/-- A complete dependent entry. -/
def cDepGood : DependentPayload :=
  { first_name := some ("Kid")
    last_name := some ("One")
    ssn := none
    dob := some ("2015-02-02")
    relationship := some ("child") }

/-- A dependent entry missing its date of birth. -/
def cDepBad : DependentPayload :=
  { first_name := some ("Kid")
    last_name := some ("Two")
    ssn := none
    dob := none
    relationship := some ("child") }

/-- A single-filer submission carrying a dependents array with one complete
and one incomplete entry. -/
def cBodyDeps : SubmitBody := { cBody with dependents := some ([cDepGood, cDepBad]) }

/-- A pre-existing dependent row for cTaxReturn. -/
def cOldDep : DependentRow :=
  { id := "d0"
    tax_return_id := "tr1"
    first_name := "Prev"
    last_name := "Dep"
    ssn := none
    dob := "2010-01-01"
    relationship := "child"
    created_at := "t0" }

/-- The fixture store with a pre-existing dependent row. -/
def cDbWithDep : DB := { cDb with dependents := [cOldDep] }

/-- A valid invitation body for the fixture client email (upper-cased, to be
normalized), with all optional fields absent. -/
def cInviteBody : InviteBody :=
  { tax_year := some 2025
    locale := some ("en")
    first_name := some ("Ana")
    last_name := some ("Bell")
    email := some ("A@X.com")
    mobile := none
    occupation := none
    expires_in_hours := none
    one_time := none }

/-- The same invitation body carrying an explicitly empty mobile string. -/
def cInviteMobileEmpty : InviteBody := { cInviteBody with mobile := some ("") }

/-- An empty store. -/
def cDbEmpty : DB :=
  { clients := []
    tax_returns := []
    intake_tokens := []
    intakes := []
    spouses := []
    dependents := []
    audit_log := [] }

/-! ## Helper lemmas -/

theorem digitChar_isDigit : ∀ d : Nat, d < 10 → (Nat.digitChar d).isDigit = true := by decide

theorem digitChar_val : ∀ d : Nat, d < 10 → (Nat.digitChar d).toNat - ('0').toNat = d := by decide

theorem charsNat_natCharsAux : ∀ fuel n : Nat, n ≤ fuel →
    charsNat (natCharsAux fuel n) = some n := by
  intro fuel
  induction fuel with
  | zero =>
    intro n hn
    interval_cases n
    rfl
  | succ f ih =>
    intro n hn
    match n with
    | 0 => rfl
    | Nat.succ m =>
      have h10 : (m + 1) % 10 < 10 := Nat.mod_lt _ (by decide)
      have hrec : (m + 1) / 10 ≤ f := by
        have := Nat.div_lt_self (Nat.succ_pos m) (show 1 < 10 by decide)
        omega
      rw [natCharsAux]
      simp only [charsNat, digitChar_isDigit _ h10, if_true, ih _ hrec,
        Option.map_some, digitChar_val _ h10]
      exact congrArg some (Nat.mod_add_div (m + 1) 10)

theorem charsNat_natChars (n : Nat) : charsNat (natChars n) = some n :=
  charsNat_natCharsAux n n (Nat.le_refl n)

theorem toList_mk (l : List Char) : (String.mk l).toList = l := rfl

theorem dateParse_isoOfEpoch (t : Int) : dateParse (isoOfEpoch t) = some t := by
  by_cases h : t < 0
  · rw [isoOfEpoch, if_pos h, dateParse.eq_def, toList_mk]
    simp only [charsNat_natChars]
    show some (-(t.natAbs : Int)) = some t
    congr 1
    omega
  · rw [isoOfEpoch, if_neg h, dateParse.eq_def, toList_mk]
    simp only [charsNat_natChars]
    show some ((t.natAbs : Int)) = some t
    congr 1
    omega

theorem isoOfEpoch_ne_empty (t : Int) : isoOfEpoch t ≠ "" := by
  unfold isoOfEpoch
  split <;> (intro h; exact absurd (congrArg String.data h) (by simp))

theorem truthy_some_isoOfEpoch (t : Int) : truthy (some (isoOfEpoch t)) = true := by
  simp [truthy, isoOfEpoch_ne_empty t]

theorem findSome?_optionMap {α β γ : Type} (g : β → γ) (q : α → Option β) (l : List α) :
    l.findSome? (fun a => (q a).map g) = (l.findSome? q).map g := by
  induction l with
  | nil => rfl
  | cons a l ih =>
    simp only [List.findSome?_cons]
    cases q a <;> simp [ih]

theorem find?_eq_some_self {α : Type} (key : α → String) {l : List α}
    (hpw : l.Pairwise (fun a b => key a ≠ key b)) {a : α} (ha : a ∈ l) :
    l.find? (fun x => key x == key a) = some a := by
  induction l with
  | nil => cases ha
  | cons h tl ih =>
    rcases List.mem_cons.mp ha with rfl | hmem
    · simp [List.find?_cons]
    · have hne : key h ≠ key a := (List.pairwise_cons.mp hpw).1 a hmem
      rw [List.find?_cons]
      simp only [beq_eq_false_iff_ne.mpr hne]
      exact ih ((List.pairwise_cons.mp hpw).2) hmem

theorem spouseStep_ok {b : SubmitBody} (h : spouseOk b = true) (now : Int)
    (trid : String) (g : Nat) (sps : List SpouseRow) :
    ∃ pr, spouseStep now b trid g sps = .ok pr := by
  unfold spouseStep
  cases hb : b.spouse with
  | none => exact ⟨_, rfl⟩
  | some s =>
    have h' : needsSpouse (b.filing_status.getD ("")) = false ∨ spouseMissing s = false := by
      have h2 := h
      unfold spouseOk at h2
      rw [hb] at h2
      simpa using h2
    by_cases hn : needsSpouse (b.filing_status.getD ("")) = true
    · have hm : spouseMissing s = false := by
        rcases h' with h' | h'
        · rw [hn] at h'; cases h'
        · exact h'
      simp only [hn, if_true, hm, Bool.false_eq_true, if_false]
      cases sps.find? (fun r => r.tax_return_id == trid) <;> exact ⟨_, rfl⟩
    · simp only [Bool.not_eq_true] at hn
      simp only [hn, Bool.false_eq_true, if_false]
      exact ⟨_, rfl⟩

theorem tokenLookup_facts {H : String → String} {pepper tok : String} {db : DB}
    {row : IntakeTokenRow} {tr : TaxReturnRow}
    (h : tokenLookup H pepper tok db = some (row, tr)) :
    row.token_hash = H (tok ++ pepper) ∧ tr.id = row.tax_return_id ∧
    row ∈ db.intake_tokens ∧ tr ∈ db.tax_returns := by
  unfold tokenLookup at h
  obtain ⟨it, hmem, hq⟩ := List.exists_of_findSome?_eq_some h
  by_cases hh : (it.token_hash == H (tok ++ pepper)) = true
  · rw [if_pos hh] at hq
    obtain ⟨tr', hfind, heq⟩ := Option.map_eq_some'.mp hq
    obtain ⟨h1, h2⟩ := Prod.mk.injEq .. ▸ heq
    have hp := List.find?_some (p := fun (r : TaxReturnRow) => r.id == it.tax_return_id) hfind
    rw [h1, h2] at hp
    refine ⟨?_, beq_iff_eq.mp hp, h1 ▸ hmem, h2 ▸ List.mem_of_find?_eq_some hfind⟩
    exact beq_iff_eq.mp (h1 ▸ hh)
  · rw [if_neg hh] at hq
    cases hq

theorem submit_checksPass
    {H : String → String} {pepper : String} {now : Int} {g : Nat} {tok : String}
    {b : SubmitBody} {ip ua : Option String} {db : DB}
    {row : IntakeTokenRow} {tr : TaxReturnRow} {e : Int}
    (hpepper : pepper ≠ "")
    (hv : validatePayload b = none)
    (hfind : tokenLookup H pepper tok db = some (row, tr))
    (hrev : truthy row.revoked_at = false)
    (hexp : dateParse row.expires_at = some e)
    (hnow : now ≤ e)
    (hused : (row.one_time == 1 && truthy row.used_at) = false) :
    Submit.onRequestPost H pepper now g (some tok) (some b) ip ua db
      = performSubmit now g (H (tok ++ pepper)) b row tr ip ua db := by
  have hp : (pepper == "") = false := beq_eq_false_iff_ne.mpr hpepper
  unfold Submit.onRequestPost
  rw [hp]
  simp only [Bool.false_eq_true, if_false]
  rw [hv, hfind]
  dsimp only
  rw [hrev]
  simp only [Bool.false_eq_true, if_false]
  rw [hexp]
  dsimp only
  rw [if_neg (not_lt.mpr hnow), hused]
  simp only [Bool.false_eq_true, if_false]

theorem performSubmit_ok {b : SubmitBody} (hsp : spouseOk b = true)
    (now : Int) (g : Nat) (th : String) (row : IntakeTokenRow) (tr : TaxReturnRow)
    (ip ua : Option String) (db : DB) :
    ∃ sp1 g1,
      spouseStep now b row.tax_return_id (g + 1) db.spouses = .ok (sp1, g1) ∧
      performSubmit now g th b row tr ip ua db =
        (.ok row.tax_return_id, submitOkDB now g th b row tr ip ua db sp1 g1) := by
  obtain ⟨⟨sp1, g1⟩, hpr⟩ := spouseStep_ok hsp now row.tax_return_id (g + 1) db.spouses
  refine ⟨sp1, g1, hpr, ?_⟩
  unfold performSubmit submitOkDB
  dsimp only
  rw [hpr]

theorem tokenLookup_map (H : String → String) (pepper tok : String) (db db' : DB)
    (fTok : IntakeTokenRow → IntakeTokenRow) (fTr : TaxReturnRow → TaxReturnRow)
    (h1 : db'.intake_tokens = db.intake_tokens.map fTok)
    (h2 : db'.tax_returns = db.tax_returns.map fTr)
    (hh : ∀ t, (fTok t).token_hash = t.token_hash)
    (hid : ∀ r, (fTr r).id = r.id)
    (htrid : ∀ t, (fTok t).tax_return_id = t.tax_return_id) :
    tokenLookup H pepper tok db'
      = (tokenLookup H pepper tok db).map (fun p => (fTok p.1, fTr p.2)) := by
  unfold tokenLookup
  dsimp only
  rw [h1, h2, List.findSome?_map,
    ← findSome?_optionMap (fun (p : IntakeTokenRow × TaxReturnRow) => (fTok p.1, fTr p.2))]
  congr 1
  funext it
  simp only [Function.comp]
  rw [hh it, htrid it]
  by_cases hc : (it.token_hash == H (tok ++ pepper)) = true
  · rw [if_pos hc, if_pos hc, List.find?_map]
    have hfun : (fun (r : TaxReturnRow) => r.id == it.tax_return_id) ∘ fTr
        = fun r => r.id == it.tax_return_id := by
      funext r
      simp [Function.comp, hid r]
    rw [hfun]
    cases db.tax_returns.find? (fun r => r.id == it.tax_return_id) <;> simp
  · rw [if_neg hc, if_neg hc]
    simp

theorem sessionLookup_map (H : String → String) (pepper tok : String) (db db' : DB)
    (fTok : IntakeTokenRow → IntakeTokenRow) (fTr : TaxReturnRow → TaxReturnRow)
    (fC : ClientRow → ClientRow)
    (h1 : db'.intake_tokens = db.intake_tokens.map fTok)
    (h2 : db'.tax_returns = db.tax_returns.map fTr)
    (h3 : db'.clients = db.clients.map fC)
    (hh : ∀ t, (fTok t).token_hash = t.token_hash)
    (hid : ∀ r, (fTr r).id = r.id)
    (htrid : ∀ t, (fTok t).tax_return_id = t.tax_return_id)
    (hcid : ∀ r, (fTr r).client_id = r.client_id)
    (hcid2 : ∀ c, (fC c).id = c.id) :
    sessionLookup H pepper tok db'
      = (sessionLookup H pepper tok db).map (fun p => (fTok p.1, fTr p.2.1, fC p.2.2)) := by
  unfold sessionLookup
  dsimp only
  rw [h1, h2, h3, List.findSome?_map,
    ← findSome?_optionMap
      (fun (p : IntakeTokenRow × TaxReturnRow × ClientRow) => (fTok p.1, fTr p.2.1, fC p.2.2))]
  congr 1
  funext it
  simp only [Function.comp]
  rw [hh it, htrid it]
  by_cases hc : (it.token_hash == H (tok ++ pepper)) = true
  · rw [if_pos hc, if_pos hc, List.find?_map]
    have hfun : (fun (r : TaxReturnRow) => r.id == it.tax_return_id) ∘ fTr
        = fun r => r.id == it.tax_return_id := by
      funext r
      simp [Function.comp, hid r]
    rw [hfun]
    cases db.tax_returns.find? (fun r => r.id == it.tax_return_id) with
    | none => simp
    | some r =>
      simp only [Option.map_some', Option.some_bind]
      rw [hcid r, List.find?_map]
      have hfun2 : (fun (c : ClientRow) => c.id == r.client_id) ∘ fC
          = fun c => c.id == r.client_id := by
        funext c
        simp [Function.comp, hcid2 c]
      rw [hfun2]
      cases db.clients.find? (fun c => c.id == r.client_id) <;> simp
  · rw [if_neg hc, if_neg hc]
    simp

theorem submit_errUsed
    {H : String → String} {pepper : String} {now : Int} {g : Nat} {tok : String}
    {b : SubmitBody} {ip ua : Option String} {db : DB}
    {row : IntakeTokenRow} {tr : TaxReturnRow} {e : Int}
    (hpepper : pepper ≠ "")
    (hv : validatePayload b = none)
    (hfind : tokenLookup H pepper tok db = some (row, tr))
    (hrev : truthy row.revoked_at = false)
    (hexp : dateParse row.expires_at = some e)
    (hnow : now ≤ e)
    (hused : (row.one_time == 1 && truthy row.used_at) = true) :
    Submit.onRequestPost H pepper now g (some tok) (some b) ip ua db
      = (.err ("Token already used") 401, db) := by
  have hp : (pepper == "") = false := beq_eq_false_iff_ne.mpr hpepper
  unfold Submit.onRequestPost
  rw [hp]
  simp only [Bool.false_eq_true, if_false]
  rw [hv, hfind]
  dsimp only
  rw [hrev]
  simp only [Bool.false_eq_true, if_false]
  rw [hexp]
  dsimp only
  rw [if_neg (not_lt.mpr hnow), hused]
  simp only [if_true]

theorem session_errUsed
    {H : String → String} {pepper : String} {now : Int} {tok : String} {db : DB}
    {row : IntakeTokenRow} {tr : TaxReturnRow} {c : ClientRow} {e : Int}
    (hpepper : pepper ≠ "")
    (hfind : sessionLookup H pepper tok db = some (row, tr, c))
    (hrev : truthy row.revoked_at = false)
    (hexp : dateParse row.expires_at = some e)
    (hnow : now ≤ e)
    (hused : (row.one_time == 1 && truthy row.used_at) = true) :
    Session.onRequestGet H pepper now (some tok) db
      = (.err ("Token already used") 401, db) := by
  have hp : (pepper == "") = false := beq_eq_false_iff_ne.mpr hpepper
  unfold Session.onRequestGet
  rw [hp]
  simp only [Bool.false_eq_true, if_false]
  rw [hfind]
  dsimp only
  rw [hrev]
  simp only [Bool.false_eq_true, if_false]
  rw [hexp]
  dsimp only
  rw [if_neg (not_lt.mpr hnow), hused]
  simp only [if_true]

theorem submit_errExpired
    {H : String → String} {pepper : String} {now : Int} {g : Nat} {tok : String}
    {b : SubmitBody} {ip ua : Option String} {db : DB}
    {row : IntakeTokenRow} {tr : TaxReturnRow}
    (hpepper : pepper ≠ "")
    (hv : validatePayload b = none)
    (hfind : tokenLookup H pepper tok db = some (row, tr))
    (hrev : truthy row.revoked_at = false)
    (hbad : dateParse row.expires_at = none ∨ ∃ e, dateParse row.expires_at = some e ∧ e < now) :
    Submit.onRequestPost H pepper now g (some tok) (some b) ip ua db
      = (.err ("Token expired") 401, db) := by
  have hp : (pepper == "") = false := beq_eq_false_iff_ne.mpr hpepper
  unfold Submit.onRequestPost
  rw [hp]
  simp only [Bool.false_eq_true, if_false]
  rw [hv, hfind]
  dsimp only
  rw [hrev]
  simp only [Bool.false_eq_true, if_false]
  rcases hbad with hnone | ⟨e, hsome, hlt⟩
  · rw [hnone]
  · rw [hsome]
    dsimp only
    rw [if_pos hlt]

theorem session_errExpired
    {H : String → String} {pepper : String} {now : Int} {tok : String} {db : DB}
    {row : IntakeTokenRow} {tr : TaxReturnRow} {c : ClientRow}
    (hpepper : pepper ≠ "")
    (hfind : sessionLookup H pepper tok db = some (row, tr, c))
    (hrev : truthy row.revoked_at = false)
    (hbad : dateParse row.expires_at = none ∨ ∃ e, dateParse row.expires_at = some e ∧ e < now) :
    Session.onRequestGet H pepper now (some tok) db
      = (.err ("Token expired") 401, db) := by
  have hp : (pepper == "") = false := beq_eq_false_iff_ne.mpr hpepper
  unfold Session.onRequestGet
  rw [hp]
  simp only [Bool.false_eq_true, if_false]
  rw [hfind]
  dsimp only
  rw [hrev]
  simp only [Bool.false_eq_true, if_false]
  rcases hbad with hnone | ⟨e, hsome, hlt⟩
  · rw [hnone]
  · rw [hsome]
    dsimp only
    rw [if_pos hlt]

theorem markUsed_token_hash (now : Int) (th : String) (t : IntakeTokenRow) :
    (markUsed now th t).token_hash = t.token_hash := by
  unfold markUsed
  split <;> rfl

theorem markUsed_tax_return_id (now : Int) (th : String) (t : IntakeTokenRow) :
    (markUsed now th t).tax_return_id = t.tax_return_id := by
  unfold markUsed
  split <;> rfl

theorem markSubmitted_id (now : Int) (d : String) (r : TaxReturnRow) :
    (markSubmitted now d r).id = r.id := by
  unfold markSubmitted
  split <;> rfl

theorem markSubmitted_client_id (now : Int) (d : String) (r : TaxReturnRow) :
    (markSubmitted now d r).client_id = r.client_id := by
  unfold markSubmitted
  split <;> rfl

theorem clientSubmitUpd_id (b : SubmitBody) (d : String) (c : ClientRow) :
    (clientSubmitUpd b d c).id = c.id := by
  unfold clientSubmitUpd
  split <;> rfl

theorem submitOkDB_tokens_one {row : IntakeTokenRow} (hone1 : (row.one_time == 1) = true)
    (now : Int) (g : Nat) (th : String) (b : SubmitBody) (tr : TaxReturnRow)
    (ip ua : Option String) (db : DB) (sp1 : List SpouseRow) (g1 : Nat) :
    (submitOkDB now g th b row tr ip ua db sp1 g1).intake_tokens
      = db.intake_tokens.map (markUsed now th) := by
  unfold submitOkDB
  dsimp only
  rw [if_pos hone1]

theorem tokenLookup_submitOkDB (H : String → String) (pepper tok : String)
    {row : IntakeTokenRow} (hone1 : (row.one_time == 1) = true)
    (now : Int) (g : Nat) (th : String) (b : SubmitBody) (tr : TaxReturnRow)
    (ip ua : Option String) (db : DB) (sp1 : List SpouseRow) (g1 : Nat) :
    tokenLookup H pepper tok (submitOkDB now g th b row tr ip ua db sp1 g1)
      = (tokenLookup H pepper tok db).map
          (fun p => (markUsed now th p.1, markSubmitted now row.tax_return_id p.2)) :=
  tokenLookup_map H pepper tok db _ _ _
    (submitOkDB_tokens_one hone1 now g th b tr ip ua db sp1 g1) rfl
    (markUsed_token_hash now th) (markSubmitted_id now row.tax_return_id)
    (markUsed_tax_return_id now th)

theorem sessionLookup_submitOkDB (H : String → String) (pepper tok : String)
    {row : IntakeTokenRow} (hone1 : (row.one_time == 1) = true)
    (now : Int) (g : Nat) (th : String) (b : SubmitBody) (tr : TaxReturnRow)
    (ip ua : Option String) (db : DB) (sp1 : List SpouseRow) (g1 : Nat) :
    sessionLookup H pepper tok (submitOkDB now g th b row tr ip ua db sp1 g1)
      = (sessionLookup H pepper tok db).map
          (fun p => (markUsed now th p.1, markSubmitted now row.tax_return_id p.2.1,
            clientSubmitUpd b tr.client_id p.2.2)) :=
  sessionLookup_map H pepper tok db _ _ _ _
    (submitOkDB_tokens_one hone1 now g th b tr ip ua db sp1 g1) rfl rfl
    (markUsed_token_hash now th) (markSubmitted_id now row.tax_return_id)
    (markUsed_tax_return_id now th) (markSubmitted_client_id now row.tax_return_id)
    (clientSubmitUpd_id b tr.client_id)

/-- C1: a one-time token is consumed exactly by a successful submission:
with valid payloads and a live one-time token, the first submission succeeds
and stamps the used timestamp on the rows carrying the token hash, and
afterwards both a second submission with the same raw token and a
validation-only call fail with the Token already used error. -/
theorem claim1_one_time_token_consumed
    (H : String → String) (pepper tok : String) (b1 b2 : SubmitBody)
    (now1 now2 : Int) (g1 g2 : Nat) (ip ua : Option String)
    (db : DB) (row : IntakeTokenRow) (tr : TaxReturnRow) (c : ClientRow) (e : Int)
    (hpepper : pepper ≠ "")
    (hv1 : validatePayload b1 = none) (hsp1 : spouseOk b1 = true)
    (hv2 : validatePayload b2 = none)
    (hfind : tokenLookup H pepper tok db = some (row, tr))
    (hsfind : sessionLookup H pepper tok db = some (row, tr, c))
    (hone : row.one_time = 1)
    (hused0 : row.used_at = none)
    (hrev0 : row.revoked_at = none)
    (hexp : dateParse row.expires_at = some e)
    (hnow1 : now1 ≤ e) (hnow2 : now2 ≤ e) :
    (Submit.onRequestPost H pepper now1 g1 (some tok) (some b1) ip ua db).1
        = SubmitRes.ok row.tax_return_id
    ∧ ((Submit.onRequestPost H pepper now1 g1 (some tok) (some b1) ip ua db).2.intake_tokens.all
        (fun t => !(t.token_hash == H (tok ++ pepper)) || t.used_at.isSome)) = true
    ∧ (Submit.onRequestPost H pepper now2 g2 (some tok) (some b2) ip ua
        (Submit.onRequestPost H pepper now1 g1 (some tok) (some b1) ip ua db).2).1
        = SubmitRes.err ("Token already used") 401
    ∧ (Session.onRequestGet H pepper now2 (some tok)
        (Submit.onRequestPost H pepper now1 g1 (some tok) (some b1) ip ua db).2).1
        = SessionRes.err ("Token already used") 401 := by
  have hrevF : truthy row.revoked_at = false := by rw [hrev0]; rfl
  have husedF : (row.one_time == 1 && truthy row.used_at) = false := by
    rw [hused0]
    simp [truthy]
  have hone1 : (row.one_time == 1) = true := by rw [hone]; rfl
  have hashrow : row.token_hash = H (tok ++ pepper) := (tokenLookup_facts hfind).1
  have hbeq : (row.token_hash == H (tok ++ pepper)) = true := beq_iff_eq.mpr hashrow
  obtain ⟨sp1, gg, hpr, hps⟩ :=
    performSubmit_ok hsp1 now1 g1 (H (tok ++ pepper)) row tr ip ua db
  have hrun :
      Submit.onRequestPost H pepper now1 g1 (some tok) (some b1) ip ua db
        = performSubmit now1 g1 (H (tok ++ pepper)) b1 row tr ip ua db :=
    submit_checksPass hpepper hv1 hfind hrevF hexp hnow1 husedF
  have hmu : markUsed now1 (H (tok ++ pepper)) row
      = { row with used_at := some (isoOfEpoch now1) } := by
    unfold markUsed
    rw [if_pos hbeq]
  have hrev2 : truthy (markUsed now1 (H (tok ++ pepper)) row).revoked_at = false := by
    rw [hmu]
    exact hrevF
  have hexp2 : dateParse (markUsed now1 (H (tok ++ pepper)) row).expires_at = some e := by
    rw [hmu]
    exact hexp
  have hused2 : ((markUsed now1 (H (tok ++ pepper)) row).one_time == 1
      && truthy (markUsed now1 (H (tok ++ pepper)) row).used_at) = true := by
    rw [hmu]
    show (row.one_time == 1 && truthy (some (isoOfEpoch now1))) = true
    rw [hone1, truthy_some_isoOfEpoch]
    rfl
  have htl : tokenLookup H pepper tok (submitOkDB now1 g1 (H (tok ++ pepper)) b1 row tr ip ua db sp1 gg)
      = some (markUsed now1 (H (tok ++ pepper)) row, markSubmitted now1 row.tax_return_id tr) := by
    rw [tokenLookup_submitOkDB H pepper tok hone1 now1 g1 (H (tok ++ pepper)) b1 tr ip ua db sp1 gg,
      hfind]
    rfl
  have hstl : sessionLookup H pepper tok (submitOkDB now1 g1 (H (tok ++ pepper)) b1 row tr ip ua db sp1 gg)
      = some (markUsed now1 (H (tok ++ pepper)) row, markSubmitted now1 row.tax_return_id tr,
          clientSubmitUpd b1 tr.client_id c) := by
    rw [sessionLookup_submitOkDB H pepper tok hone1 now1 g1 (H (tok ++ pepper)) b1 tr ip ua db sp1 gg,
      hsfind]
    rfl
  refine ⟨?_, ?_, ?_, ?_⟩
  · rw [hrun, hps]
  · rw [hrun, hps]
    dsimp only
    rw [submitOkDB_tokens_one hone1 now1 g1 (H (tok ++ pepper)) b1 tr ip ua db sp1 gg,
      List.all_eq_true]
    rintro t ht
    obtain ⟨x, hx, rfl⟩ := List.mem_map.mp ht
    by_cases hxh : (x.token_hash == H (tok ++ pepper)) = true
    · unfold markUsed
      rw [if_pos hxh]
      simp
    · have hxf : (x.token_hash == H (tok ++ pepper)) = false := by simpa using hxh
      unfold markUsed
      rw [if_neg hxh]
      simp [hxf]
  · rw [hrun, hps]
    dsimp only
    rw [submit_errUsed hpepper hv2 htl hrev2 hexp2 hnow2 hused2]
  · rw [hrun, hps]
    dsimp only
    rw [session_errUsed hpepper hstl hrev2 hexp2 hnow2 hused2]

/-- Witness for C1 at the concrete fixture store: the hypotheses hold and the
conclusion evaluates on cDb with the raw token "tok". -/
theorem claim1_one_time_token_consumed_witness :
    (Submit.onRequestPost hashId ("p") 5 0 (some ("tok")) (some cBody) none none cDb).1
        = SubmitRes.ok cToken.tax_return_id
    ∧ ((Submit.onRequestPost hashId ("p") 5 0 (some ("tok")) (some cBody) none none cDb).2.intake_tokens.all
        (fun t => !(t.token_hash == hashId ("tok" ++ "p")) || t.used_at.isSome)) = true
    ∧ (Submit.onRequestPost hashId ("p") 6 1 (some ("tok")) (some cBody) none none
        (Submit.onRequestPost hashId ("p") 5 0 (some ("tok")) (some cBody) none none cDb).2).1
        = SubmitRes.err ("Token already used") 401
    ∧ (Session.onRequestGet hashId ("p") 6 (some ("tok"))
        (Submit.onRequestPost hashId ("p") 5 0 (some ("tok")) (some cBody) none none cDb).2).1
        = SessionRes.err ("Token already used") 401 :=
  claim1_one_time_token_consumed hashId ("p") ("tok") cBody cBody 5 6 0 1 none none
    cDb cToken cTaxReturn cClient 100
    (by decide) rfl rfl rfl rfl rfl rfl rfl rfl (by decide) (by decide) (by decide)

theorem spouseStep_notNeeded {b : SubmitBody}
    (hns : needsSpouse (b.filing_status.getD ("")) = false)
    (now : Int) (trid : String) (g : Nat) (sps : List SpouseRow) :
    spouseStep now b trid g sps
      = .ok ((sps.filter (fun r => !(r.tax_return_id == trid)), g)) := by
  unfold spouseStep
  cases b.spouse <;> simp [hns]

theorem performSubmit_spouseErr {b : SubmitBody} {s : SpousePayload}
    (h1 : b.spouse = some s)
    (h2 : needsSpouse (b.filing_status.getD ("")) = true)
    (h3 : spouseMissing s = true)
    (now : Int) (g : Nat) (th : String) (row : IntakeTokenRow) (tr : TaxReturnRow)
    (ip ua : Option String) (db : DB) :
    performSubmit now g th b row tr ip ua db
      = (.err ("spouse fields required for married filing status") 400,
         { db with clients := updateClientOnSubmit b tr.client_id db.clients
                   intakes := upsertIntake now b (uuid g) row.tax_return_id db.intakes }) := by
  have hss : spouseStep now b row.tax_return_id (g + 1) db.spouses
      = .error (("spouse fields required for married filing status", 400)) := by
    unfold spouseStep
    rw [h1]
    simp [h2, h3]
  unfold performSubmit
  dsimp only
  rw [hss]

/-- C2 (code-bug evidence): at the failing input — a structurally valid
married-joint submission whose spouse object lacks required fields, presented
with a live token — the endpoint reports the spouse validation error with
status 400, yet the store has already been mutated: the clients table and the
intakes table both differ from the initial store, so an error response does
not leave the persistent state unchanged. -/
theorem claim2_partial_mutation_on_error :
    (Submit.onRequestPost hashId ("p") 5 0 (some ("tok")) (some cBodyMarriedBadSpouse) none none cDb).1
      = SubmitRes.err ("spouse fields required for married filing status") 400
    ∧ (Submit.onRequestPost hashId ("p") 5 0 (some ("tok")) (some cBodyMarriedBadSpouse) none none cDb).2.clients
      ≠ cDb.clients
    ∧ (Submit.onRequestPost hashId ("p") 5 0 (some ("tok")) (some cBodyMarriedBadSpouse) none none cDb).2.intakes
      ≠ cDb.intakes := by decide

/-- C3 counterexample: a married-joint submission with no spouse object does
not fail with a validation error — it succeeds, and the pre-existing spouse
row is deleted. -/
theorem claim3_married_without_spouse_not_rejected :
    (Submit.onRequestPost hashId ("p") 5 0 (some ("tok")) (some cBodyMarriedNoSpouse) none none cDbWithSpouse).1
      = SubmitRes.ok ("tr1")
    ∧ (Submit.onRequestPost hashId ("p") 5 0 (some ("tok")) (some cBodyMarriedNoSpouse) none none cDbWithSpouse).2.spouses
      = ([] : List SpouseRow) := by decide

/-- C3 as amended: for a married filing status, a supplied but incomplete
spouse object fails with the spouse validation error; a submission with
filing status single succeeds and leaves no spouse row for the tax return
(any spouse object supplied is not inserted, existing rows are deleted). -/
theorem claim3_spouse_validation_and_deletion
    (H : String → String) (pepper tok : String) (bMiss bSingle : SubmitBody)
    (s : SpousePayload) (now : Int) (g : Nat) (ip ua : Option String)
    (db : DB) (row : IntakeTokenRow) (tr : TaxReturnRow) (e : Int)
    (hpepper : pepper ≠ "")
    (hfind : tokenLookup H pepper tok db = some (row, tr))
    (hrev : truthy row.revoked_at = false)
    (hexp : dateParse row.expires_at = some e)
    (hnow : now ≤ e)
    (hused : (row.one_time == 1 && truthy row.used_at) = false)
    (hvM : validatePayload bMiss = none)
    (hsM : bMiss.spouse = some s)
    (hmM : needsSpouse (bMiss.filing_status.getD ("")) = true)
    (hmiss : spouseMissing s = true)
    (hvS : validatePayload bSingle = none)
    (hfsS : bSingle.filing_status = some ("single")) :
    (Submit.onRequestPost H pepper now g (some tok) (some bMiss) ip ua db).1
        = SubmitRes.err ("spouse fields required for married filing status") 400
    ∧ (Submit.onRequestPost H pepper now g (some tok) (some bSingle) ip ua db).1
        = SubmitRes.ok row.tax_return_id
    ∧ ((Submit.onRequestPost H pepper now g (some tok) (some bSingle) ip ua db).2.spouses.all
        (fun r => !(r.tax_return_id == row.tax_return_id))) = true := by
  have hns : needsSpouse (bSingle.filing_status.getD ("")) = false := by
    rw [hfsS]
    decide
  have hsp : spouseOk bSingle = true := by
    unfold spouseOk
    cases bSingle.spouse <;> simp [hns]
  obtain ⟨sp1, g1, hpr, hps⟩ := performSubmit_ok hsp now g (H (tok ++ pepper)) row tr ip ua db
  have hspl : sp1 = db.spouses.filter (fun r => !(r.tax_return_id == row.tax_return_id)) := by
    rw [spouseStep_notNeeded hns now row.tax_return_id (g + 1) db.spouses] at hpr
    obtain ⟨h1, h2⟩ := Prod.mk.injEq .. ▸ (Except.ok.inj hpr)
    exact h1.symm
  refine ⟨?_, ?_, ?_⟩
  · rw [submit_checksPass hpepper hvM hfind hrev hexp hnow hused,
      performSubmit_spouseErr hsM hmM hmiss now g (H (tok ++ pepper)) row tr ip ua db]
  · rw [submit_checksPass hpepper hvS hfind hrev hexp hnow hused, hps]
  · rw [submit_checksPass hpepper hvS hfind hrev hexp hnow hused, hps]
    dsimp only [submitOkDB]
    rw [hspl, List.all_eq_true]
    intro r hr
    exact (List.mem_filter.mp hr).2

/-- Witness for the amended C3 on the fixture store with a pre-existing
spouse row, using the incomplete-spouse married body and the single body. -/
theorem claim3_spouse_validation_and_deletion_witness :
    (Submit.onRequestPost hashId ("p") 5 0 (some ("tok")) (some cBodyMarriedBadSpouse) none none cDbWithSpouse).1
        = SubmitRes.err ("spouse fields required for married filing status") 400
    ∧ (Submit.onRequestPost hashId ("p") 5 0 (some ("tok")) (some cBody) none none cDbWithSpouse).1
        = SubmitRes.ok cToken.tax_return_id
    ∧ ((Submit.onRequestPost hashId ("p") 5 0 (some ("tok")) (some cBody) none none cDbWithSpouse).2.spouses.all
        (fun r => !(r.tax_return_id == cToken.tax_return_id))) = true :=
  claim3_spouse_validation_and_deletion hashId ("p") ("tok") cBodyMarriedBadSpouse cBody
    cBadSpouse 5 0 none none cDbWithSpouse cToken cTaxReturn 100
    (by decide) rfl rfl rfl (by decide) rfl rfl rfl (by decide) (by decide) rfl rfl

/-- C4 counterexample: a token that is both revoked and past its stored
expiry (epoch 100, presented at 200) fails with Token revoked, not with
Token expired, on both the validator and the submission endpoint. -/
theorem claim4_revoked_expired_counterexample :
    dateParse cTokenRevoked.expires_at = some 100
    ∧ (Session.onRequestGet hashId ("p") 200 (some ("tok")) cDbRevoked).1
      = SessionRes.err ("Token revoked") 401
    ∧ (Submit.onRequestPost hashId ("p") 200 0 (some ("tok")) (some cBody) none none cDbRevoked).1
      = SubmitRes.err ("Token revoked") 401
    ∧ ¬ (Session.onRequestGet hashId ("p") 200 (some ("tok")) cDbRevoked).1
      = SessionRes.err ("Token expired") 401 := by decide

/-- C4 as amended: a non-revoked token past its stored expiry fails with
Token expired on both validation and submission (with a structurally valid
payload), regardless of its one-time or used state. -/
theorem claim4_expired_unrevoked
    (H : String → String) (pepper tok : String) (b : SubmitBody)
    (now : Int) (g : Nat) (ip ua : Option String)
    (db : DB) (row : IntakeTokenRow) (tr : TaxReturnRow) (c : ClientRow) (e : Int)
    (hpepper : pepper ≠ "")
    (hv : validatePayload b = none)
    (hfind : tokenLookup H pepper tok db = some (row, tr))
    (hsfind : sessionLookup H pepper tok db = some (row, tr, c))
    (hrev : truthy row.revoked_at = false)
    (hexp : dateParse row.expires_at = some e)
    (hlt : e < now) :
    (Submit.onRequestPost H pepper now g (some tok) (some b) ip ua db).1
        = SubmitRes.err ("Token expired") 401
    ∧ (Session.onRequestGet H pepper now (some tok) db).1
        = SessionRes.err ("Token expired") 401 := by
  refine ⟨?_, ?_⟩
  · rw [submit_errExpired hpepper hv hfind hrev (Or.inr ⟨e, hexp, hlt⟩)]
  · rw [session_errExpired hpepper hsfind hrev (Or.inr ⟨e, hexp, hlt⟩)]

/-- Witness for the amended C4 on a used one-time token whose expiry (epoch
100) is past at instant 200: both endpoints report Token expired. -/
theorem claim4_expired_unrevoked_witness :
    (Submit.onRequestPost hashId ("p") 200 0 (some ("tok")) (some cBody) none none cDbExpUsed).1
        = SubmitRes.err ("Token expired") 401
    ∧ (Session.onRequestGet hashId ("p") 200 (some ("tok")) cDbExpUsed).1
        = SessionRes.err ("Token expired") 401 :=
  claim4_expired_unrevoked hashId ("p") ("tok") cBody 200 0 none none
    cDbExpUsed cTokenExpUsed cTaxReturn cClient 100
    (by decide) rfl rfl rfl rfl rfl (by decide)

/-- C10 counterexample: a revoked token whose stored expiry string does not
parse fails with Token revoked, not with Token expired, on both endpoints. -/
theorem claim10_revoked_malformed_counterexample :
    dateParse cTokenRevokedGarbage.expires_at = none
    ∧ (Session.onRequestGet hashId ("p") 5 (some ("tok")) cDbRevokedGarbage).1
      = SessionRes.err ("Token revoked") 401
    ∧ (Submit.onRequestPost hashId ("p") 5 0 (some ("tok")) (some cBody) none none cDbRevokedGarbage).1
      = SubmitRes.err ("Token revoked") 401
    ∧ ¬ (Session.onRequestGet hashId ("p") 5 (some ("tok")) cDbRevokedGarbage).1
      = SessionRes.err ("Token expired") 401 := by decide

/-- C10 as amended: a non-revoked token whose stored expiry string does not
parse to a timestamp is rejected with Token expired by both validation and
submission (with a structurally valid payload), at every instant. -/
theorem claim10_malformed_expiry_rejected
    (H : String → String) (pepper tok : String) (b : SubmitBody)
    (now : Int) (g : Nat) (ip ua : Option String)
    (db : DB) (row : IntakeTokenRow) (tr : TaxReturnRow) (c : ClientRow)
    (hpepper : pepper ≠ "")
    (hv : validatePayload b = none)
    (hfind : tokenLookup H pepper tok db = some (row, tr))
    (hsfind : sessionLookup H pepper tok db = some (row, tr, c))
    (hrev : truthy row.revoked_at = false)
    (hmal : dateParse row.expires_at = none) :
    (Submit.onRequestPost H pepper now g (some tok) (some b) ip ua db).1
        = SubmitRes.err ("Token expired") 401
    ∧ (Session.onRequestGet H pepper now (some tok) db).1
        = SessionRes.err ("Token expired") 401 := by
  refine ⟨?_, ?_⟩
  · rw [submit_errExpired hpepper hv hfind hrev (Or.inl hmal)]
  · rw [session_errExpired hpepper hsfind hrev (Or.inl hmal)]

/-- Witness for the amended C10 on the malformed-expiry fixture token. -/
theorem claim10_malformed_expiry_rejected_witness :
    (Submit.onRequestPost hashId ("p") 5 0 (some ("tok")) (some cBody) none none cDbGarbage).1
        = SubmitRes.err ("Token expired") 401
    ∧ (Session.onRequestGet hashId ("p") 5 (some ("tok")) cDbGarbage).1
        = SessionRes.err ("Token expired") 401 :=
  claim10_malformed_expiry_rejected hashId ("p") ("tok") cBody 5 0 none none
    cDbGarbage cTokenGarbage cTaxReturn cClient
    (by decide) rfl rfl rfl rfl rfl

theorem insertDependents_eq (now : Int) (trid : String) :
    ∀ (l : List DependentPayload) (g : Nat) (rows : List DependentRow),
      (insertDependents now trid l g rows).1 = rows ++ mkDepRows now trid l g := by
  intro l
  induction l with
  | nil =>
    intro g rows
    simp [insertDependents, mkDepRows]
  | cons d rest ih =>
    intro g rows
    unfold insertDependents mkDepRows
    by_cases hq : depQualifies d = true
    · rw [if_pos hq, if_pos hq, ih]
      simp
    · rw [if_neg hq, if_neg hq, ih]

theorem mkDepRows_trid (now : Int) (trid : String) :
    ∀ (l : List DependentPayload) (g : Nat) (r : DependentRow),
      r ∈ mkDepRows now trid l g → r.tax_return_id = trid := by
  intro l
  induction l with
  | nil =>
    intro g r hr
    cases hr
  | cons d rest ih =>
    intro g r hr
    unfold mkDepRows at hr
    by_cases hq : depQualifies d = true
    · rw [if_pos hq] at hr
      rcases List.mem_cons.mp hr with rfl | hmem
      · rfl
      · exact ih (g + 1) r hmem
    · rw [if_neg hq] at hr
      exact ih g r hr

theorem mkDepRows_fields (now : Int) (trid : String) :
    ∀ (l : List DependentPayload) (g : Nat),
      (mkDepRows now trid l g).map depFields = (l.filter depQualifies).map payloadFields := by
  intro l
  induction l with
  | nil =>
    intro g
    rfl
  | cons d rest ih =>
    intro g
    unfold mkDepRows
    rw [List.filter_cons]
    by_cases hq : depQualifies d = true
    · rw [if_pos hq, if_pos hq]
      simp only [List.map_cons, ih]
      rfl
    · rw [if_neg hq, if_neg hq]
      exact ih g

/-- C8: under a successful submission, the client row of the tax return
stores as ssn_last4 exactly: the submitted SSN stripped of non-digits, its
trailing four digits, or the default 0000 when fewer than four digits are
present. -/
theorem claim8_ssn_redaction
    (H : String → String) (pepper tok : String) (b : SubmitBody)
    (now : Int) (g : Nat) (ip ua : Option String)
    (db : DB) (row : IntakeTokenRow) (tr : TaxReturnRow) (e : Int)
    (hpepper : pepper ≠ "")
    (hv : validatePayload b = none)
    (hsp : spouseOk b = true)
    (hfind : tokenLookup H pepper tok db = some (row, tr))
    (hrev : truthy row.revoked_at = false)
    (hexp : dateParse row.expires_at = some e)
    (hnow : now ≤ e)
    (hused : (row.one_time == 1 && truthy row.used_at) = false) :
    (Submit.onRequestPost H pepper now g (some tok) (some b) ip ua db).1
        = SubmitRes.ok row.tax_return_id
    ∧ ((Submit.onRequestPost H pepper now g (some tok) (some b) ip ua db).2.clients.all
        (fun x => !(x.id == tr.client_id)
          || (x.ssn_last4 == (if (digitsOnly (b.taxpayer_ssn.getD (""))).length ≥ 4
                then strTakeRight (digitsOnly (b.taxpayer_ssn.getD (""))) 4
                else ("0000"))))) = true := by
  obtain ⟨sp1, g1, hpr, hps⟩ := performSubmit_ok hsp now g (H (tok ++ pepper)) row tr ip ua db
  have hrw : Submit.onRequestPost H pepper now g (some tok) (some b) ip ua db
      = performSubmit now g (H (tok ++ pepper)) b row tr ip ua db :=
    submit_checksPass hpepper hv hfind hrev hexp hnow hused
  refine ⟨?_, ?_⟩
  · rw [hrw, hps]
  · rw [hrw, hps]
    dsimp only [submitOkDB]
    unfold updateClientOnSubmit
    rw [List.all_eq_true]
    intro x hx
    obtain ⟨y, hy, rfl⟩ := List.mem_map.mp hx
    unfold clientSubmitUpd
    by_cases hid : (y.id == tr.client_id) = true
    · rw [if_pos hid]
      have h2 : ((ssnLast4 (b.taxpayer_ssn.getD (""))
          == (if (digitsOnly (b.taxpayer_ssn.getD (""))).length ≥ 4
                then strTakeRight (digitsOnly (b.taxpayer_ssn.getD (""))) 4
                else ("0000")))) = true := by
        rw [beq_iff_eq]
        rfl
      show (!(_ : Bool) || _) = true
      rw [h2, Bool.or_true]
    · rw [if_neg hid]
      have hidf : (y.id == tr.client_id) = false := by simpa using hid
      simp [hidf]

/-- Witness for C8 on the fixture single-filer submission, whose SSN
123-45-6789 redacts to 6789. -/
theorem claim8_ssn_redaction_witness :
    (Submit.onRequestPost hashId ("p") 5 0 (some ("tok")) (some cBody) none none cDb).1
        = SubmitRes.ok cToken.tax_return_id
    ∧ ((Submit.onRequestPost hashId ("p") 5 0 (some ("tok")) (some cBody) none none cDb).2.clients.all
        (fun x => !(x.id == cTaxReturn.client_id)
          || (x.ssn_last4 == (if (digitsOnly (cBody.taxpayer_ssn.getD (""))).length ≥ 4
                then strTakeRight (digitsOnly (cBody.taxpayer_ssn.getD (""))) 4
                else ("0000"))))) = true :=
  claim8_ssn_redaction hashId ("p") ("tok") cBody 5 0 none none cDb cToken cTaxReturn 100
    (by decide) rfl rfl rfl rfl rfl (by decide) rfl

/-- C9: a successful submission with a dependents array replaces the full
dependent set of the tax return: afterwards the rows of the tax return are
exactly the qualifying submitted entries (those with first name, last name,
relationship and DOB; the rest are silently skipped), and rows of other tax
returns are untouched — so repeated submissions keep only the most recent
list, never a union. -/
theorem claim9_dependents_replace_all
    (H : String → String) (pepper tok : String) (b : SubmitBody) (l : List DependentPayload)
    (now : Int) (g : Nat) (ip ua : Option String)
    (db : DB) (row : IntakeTokenRow) (tr : TaxReturnRow) (e : Int)
    (hpepper : pepper ≠ "")
    (hv : validatePayload b = none)
    (hsp : spouseOk b = true)
    (hfind : tokenLookup H pepper tok db = some (row, tr))
    (hrev : truthy row.revoked_at = false)
    (hexp : dateParse row.expires_at = some e)
    (hnow : now ≤ e)
    (hused : (row.one_time == 1 && truthy row.used_at) = false)
    (hdeps : b.dependents = some l) :
    (Submit.onRequestPost H pepper now g (some tok) (some b) ip ua db).1
        = SubmitRes.ok row.tax_return_id
    ∧ (((Submit.onRequestPost H pepper now g (some tok) (some b) ip ua db).2.dependents.filter
          (fun r => r.tax_return_id == row.tax_return_id)).map depFields
        = (l.filter depQualifies).map payloadFields)
    ∧ ((Submit.onRequestPost H pepper now g (some tok) (some b) ip ua db).2.dependents.filter
          (fun r => !(r.tax_return_id == row.tax_return_id))
        = db.dependents.filter (fun r => !(r.tax_return_id == row.tax_return_id))) := by
  obtain ⟨sp1, g1, hpr, hps⟩ := performSubmit_ok hsp now g (H (tok ++ pepper)) row tr ip ua db
  have hrw : Submit.onRequestPost H pepper now g (some tok) (some b) ip ua db
      = performSubmit now g (H (tok ++ pepper)) b row tr ip ua db :=
    submit_checksPass hpepper hv hfind hrev hexp hnow hused
  have hdd : (submitOkDB now g (H (tok ++ pepper)) b row tr ip ua db sp1 g1).dependents
      = db.dependents.filter (fun r => !(r.tax_return_id == row.tax_return_id))
        ++ mkDepRows now row.tax_return_id l g1 := by
    show (dependentsStep now b row.tax_return_id g1 db.dependents).1 = _
    unfold dependentsStep
    rw [hdeps]
    dsimp only
    rw [insertDependents_eq]
  refine ⟨?_, ?_, ?_⟩
  · rw [hrw, hps]
  · rw [hrw, hps]
    show ((submitOkDB now g (H (tok ++ pepper)) b row tr ip ua db sp1 g1).dependents.filter
        (fun r => r.tax_return_id == row.tax_return_id)).map depFields = _
    rw [hdd, List.filter_append]
    have h1 : (db.dependents.filter (fun r => !(r.tax_return_id == row.tax_return_id))).filter
        (fun r => r.tax_return_id == row.tax_return_id) = [] := by
      rw [List.filter_eq_nil_iff]
      intro a ha
      have h2 := (List.mem_filter.mp ha).2
      simp only [Bool.not_eq_true'] at h2
      simp [h2]
    have h2 : (mkDepRows now row.tax_return_id l g1).filter
        (fun r => r.tax_return_id == row.tax_return_id)
        = mkDepRows now row.tax_return_id l g1 := by
      rw [List.filter_eq_self]
      intro a ha
      exact beq_iff_eq.mpr (mkDepRows_trid now row.tax_return_id l g1 a ha)
    rw [h1, h2, List.nil_append, mkDepRows_fields]
  · rw [hrw, hps]
    show (submitOkDB now g (H (tok ++ pepper)) b row tr ip ua db sp1 g1).dependents.filter
        (fun r => !(r.tax_return_id == row.tax_return_id)) = _
    rw [hdd, List.filter_append]
    have h1 : (db.dependents.filter (fun r => !(r.tax_return_id == row.tax_return_id))).filter
        (fun r => !(r.tax_return_id == row.tax_return_id))
        = db.dependents.filter (fun r => !(r.tax_return_id == row.tax_return_id)) := by
      rw [List.filter_eq_self]
      intro a ha
      exact (List.mem_filter.mp ha).2
    have h2 : (mkDepRows now row.tax_return_id l g1).filter
        (fun r => !(r.tax_return_id == row.tax_return_id)) = [] := by
      rw [List.filter_eq_nil_iff]
      intro a ha
      have h3 := beq_iff_eq.mpr (mkDepRows_trid now row.tax_return_id l g1 a ha)
      simp [h3]
    rw [h1, h2, List.append_nil]

/-- Witness for C9 on the fixture store holding one pre-existing dependent
row, with a submission carrying one complete and one incomplete entry. -/
theorem claim9_dependents_replace_all_witness :
    (Submit.onRequestPost hashId ("p") 5 0 (some ("tok")) (some cBodyDeps) none none cDbWithDep).1
        = SubmitRes.ok cToken.tax_return_id
    ∧ (((Submit.onRequestPost hashId ("p") 5 0 (some ("tok")) (some cBodyDeps) none none cDbWithDep).2.dependents.filter
          (fun r => r.tax_return_id == cToken.tax_return_id)).map depFields
        = (([cDepGood, cDepBad].filter depQualifies).map payloadFields))
    ∧ ((Submit.onRequestPost hashId ("p") 5 0 (some ("tok")) (some cBodyDeps) none none cDbWithDep).2.dependents.filter
          (fun r => !(r.tax_return_id == cToken.tax_return_id))
        = cDbWithDep.dependents.filter (fun r => !(r.tax_return_id == cToken.tax_return_id))) :=
  claim9_dependents_replace_all hashId ("p") ("tok") cBodyDeps ([cDepGood, cDepBad])
    5 0 none none cDbWithDep cToken cTaxReturn 100
    (by decide) rfl rfl rfl rfl rfl (by decide) rfl rfl

theorem invite_run_existing
    {H : String → String} {pepper : String} {now : Int} {g : Nat}
    {rawToken : String} {siteOrigin : Option String} {b : InviteBody}
    {ip ua : Option String} {db : DB} {c : ClientRow} {y : Int}
    (hpepper : pepper ≠ "")
    (hy : b.tax_year = some y)
    (hy0 : (y == 0) = false)
    (hfn : truthy b.first_name = true)
    (hln : truthy b.last_name = true)
    (hem : truthy b.email = true)
    (hloc : (b.locale.getD ("es") == "es" || b.locale.getD ("es") == "en") = true)
    (hc : db.clients.find? (fun x => x.email == jsToLower (jsTrim (b.email.getD ("")))) = some c) :
    Invite.onRequestPost H pepper now g rawToken siteOrigin (some b) ip ua db
      = inviteAfterClient now g rawToken (H (rawToken ++ pepper))
          (isoOfEpoch (now + (b.expires_in_hours.getD 72) * 3600000))
          (b.one_time.getD true) y (b.locale.getD ("es")) (b.expires_in_hours.getD 72)
          siteOrigin c.id ip ua
          { db with clients := db.clients.map (fun x =>
              if x.id == c.id then
                clientMerge (jsTrim (b.first_name.getD (""))) (jsTrim (b.last_name.getD ("")))
                  b.mobile b.occupation (b.locale.getD ("es")) x
              else x) } := by
  have hp : (pepper == "") = false := beq_eq_false_iff_ne.mpr hpepper
  unfold Invite.onRequestPost
  dsimp only
  rw [hy]
  dsimp only
  rw [hy0]
  simp only [Bool.false_eq_true, if_false]
  rw [hfn, hln, hem, hloc, hp]
  simp only [Bool.not_true, Bool.or_self, Bool.false_eq_true, if_false, Bool.not_false,
    Bool.not_eq_true]
  rw [hc]

theorem invite_run_new
    {H : String → String} {pepper : String} {now : Int} {g : Nat}
    {rawToken : String} {siteOrigin : Option String} {b : InviteBody}
    {ip ua : Option String} {db : DB} {y : Int}
    (hpepper : pepper ≠ "")
    (hy : b.tax_year = some y)
    (hy0 : (y == 0) = false)
    (hfn : truthy b.first_name = true)
    (hln : truthy b.last_name = true)
    (hem : truthy b.email = true)
    (hloc : (b.locale.getD ("es") == "es" || b.locale.getD ("es") == "en") = true)
    (hc : db.clients.find? (fun x => x.email == jsToLower (jsTrim (b.email.getD ("")))) = none) :
    Invite.onRequestPost H pepper now g rawToken siteOrigin (some b) ip ua db
      = inviteAfterClient now (g + 1) rawToken (H (rawToken ++ pepper))
          (isoOfEpoch (now + (b.expires_in_hours.getD 72) * 3600000))
          (b.one_time.getD true) y (b.locale.getD ("es")) (b.expires_in_hours.getD 72)
          siteOrigin (uuid g) ip ua
          { db with clients := db.clients ++
              [{ id := uuid g
                 first_name := jsTrim (b.first_name.getD (""))
                 last_name := jsTrim (b.last_name.getD (""))
                 email := jsToLower (jsTrim (b.email.getD ("")))
                 mobile := b.mobile
                 occupation := b.occupation
                 locale := b.locale.getD ("es")
                 ssn_last4 := ("0000")
                 created_at := isoOfEpoch now
                 updated_at := isoOfEpoch now }] } := by
  have hp : (pepper == "") = false := beq_eq_false_iff_ne.mpr hpepper
  unfold Invite.onRequestPost
  dsimp only
  rw [hy]
  dsimp only
  rw [hy0]
  simp only [Bool.false_eq_true, if_false]
  rw [hfn, hln, hem, hloc, hp]
  simp only [Bool.not_true, Bool.or_self, Bool.false_eq_true, if_false, Bool.not_false,
    Bool.not_eq_true]
  rw [hc]

theorem inviteAfterClient_found
    {db : DB} {clientId : String} {taxYear : Int} {r : TaxReturnRow}
    (htr : db.tax_returns.find? (fun x => x.client_id == clientId && x.tax_year == taxYear)
      = some r)
    (now : Int) (g : Nat) (rawToken tokenHash expIso : String) (oneTime : Bool)
    (locale : String) (expiresInHours : Int) (siteOrigin : Option String)
    (ip ua : Option String) :
    inviteAfterClient now g rawToken tokenHash expIso oneTime taxYear locale
        expiresInHours siteOrigin clientId ip ua db
      = (.ok { intake_url := stripTrailingSlashes (jsOrDefault siteOrigin ("https://rbmentors.com"))
                 ++ (if locale == "en" then "/en/intake" else "/es/intake")
                 ++ "?t=" ++ rawToken
               tax_return_id := r.id
               expires_at := expIso
               one_time := oneTime },
         { db with
           intake_tokens := db.intake_tokens ++
             [{ id := uuid g
                tax_return_id := r.id
                token_hash := tokenHash
                expires_at := expIso
                one_time := if oneTime then 1 else 0
                used_at := none
                revoked_at := none
                created_at := isoOfEpoch now }]
           audit_log := db.audit_log ++
             [{ id := uuid (g + 1)
                tax_return_id := r.id
                event := ("invite_created")
                ip := ip
                user_agent := ua
                details_json := "\x7b\"locale\":\"" ++ locale
                  ++ "\",\"tax_year\":" ++ toString taxYear
                  ++ ",\"expires_in_hours\":" ++ toString expiresInHours
                  ++ ",\"one_time\":" ++ (if oneTime then "true" else "false")
                  ++ "\x7d"
                created_at := isoOfEpoch now }] }) := by
  unfold inviteAfterClient
  rw [htr]

theorem inviteAfterClient_notFound
    {db : DB} {clientId : String} {taxYear : Int}
    (htr : db.tax_returns.find? (fun x => x.client_id == clientId && x.tax_year == taxYear)
      = none)
    (now : Int) (g : Nat) (rawToken tokenHash expIso : String) (oneTime : Bool)
    (locale : String) (expiresInHours : Int) (siteOrigin : Option String)
    (ip ua : Option String) :
    inviteAfterClient now g rawToken tokenHash expIso oneTime taxYear locale
        expiresInHours siteOrigin clientId ip ua db
      = (.ok { intake_url := stripTrailingSlashes (jsOrDefault siteOrigin ("https://rbmentors.com"))
                 ++ (if locale == "en" then "/en/intake" else "/es/intake")
                 ++ "?t=" ++ rawToken
               tax_return_id := uuid g
               expires_at := expIso
               one_time := oneTime },
         { db with
           tax_returns := db.tax_returns ++
             [{ id := uuid g
                client_id := clientId
                tax_year := taxYear
                status := ("invited")
                submitted_at := none
                created_at := isoOfEpoch now
                updated_at := isoOfEpoch now }]
           intake_tokens := db.intake_tokens ++
             [{ id := uuid (g + 1)
                tax_return_id := uuid g
                token_hash := tokenHash
                expires_at := expIso
                one_time := if oneTime then 1 else 0
                used_at := none
                revoked_at := none
                created_at := isoOfEpoch now }]
           audit_log := db.audit_log ++
             [{ id := uuid (g + 1 + 1)
                tax_return_id := uuid g
                event := ("invite_created")
                ip := ip
                user_agent := ua
                details_json := "\x7b\"locale\":\"" ++ locale
                  ++ "\",\"tax_year\":" ++ toString taxYear
                  ++ ",\"expires_in_hours\":" ++ toString expiresInHours
                  ++ ",\"one_time\":" ++ (if oneTime then "true" else "false")
                  ++ "\x7d"
                created_at := isoOfEpoch now }] }) := by
  unfold inviteAfterClient
  rw [htr]

theorem inviteAfterClient_clients (now : Int) (g : Nat)
    (rawToken tokenHash expIso : String) (oneTime : Bool) (taxYear : Int)
    (locale : String) (expiresInHours : Int) (siteOrigin : Option String)
    (clientId : String) (ip ua : Option String) (db : DB) :
    (inviteAfterClient now g rawToken tokenHash expIso oneTime taxYear locale
        expiresInHours siteOrigin clientId ip ua db).2.clients = db.clients := by
  rcases htr : db.tax_returns.find? (fun x => x.client_id == clientId && x.tax_year == taxYear)
    with _ | r
  · rw [inviteAfterClient_notFound htr now g rawToken tokenHash expIso oneTime locale
      expiresInHours siteOrigin ip ua]
  · rw [inviteAfterClient_found htr now g rawToken tokenHash expIso oneTime locale
      expiresInHours siteOrigin ip ua]

/-- C7 counterexample: re-inviting the fixture client with an explicitly
empty mobile string overwrites the stored mobile 555 with the empty string,
so a blank incoming field does clobber an existing value. -/
theorem claim7_blank_mobile_overwrites :
    cClient.mobile = some ("555")
    ∧ (Invite.onRequestPost hashId ("p") 5 0 ("rawtok") none (some cInviteMobileEmpty)
        none none cDb).2.clients
      = [{ cClient with mobile := some ("") }] := by decide

/-- C7 as amended: the invite-time client refresh maps the stored row to the
merge in which blank (empty after trimming) incoming name fields and a blank
locale never overwrite, while mobile and occupation are preserved only when
the incoming value is null or absent — an explicitly supplied empty string
does overwrite them; the email and every other client column are unchanged. -/
theorem claim7_client_merge
    (H : String → String) (pepper rawToken : String) (siteOrigin : Option String)
    (b : InviteBody) (now : Int) (g : Nat) (ip ua : Option String)
    (db : DB) (c : ClientRow) (y : Int)
    (hpepper : pepper ≠ "")
    (hy : b.tax_year = some y)
    (hy0 : (y == 0) = false)
    (hfn : truthy b.first_name = true)
    (hln : truthy b.last_name = true)
    (hem : truthy b.email = true)
    (hloc : (b.locale.getD ("es") == "es" || b.locale.getD ("es") == "en") = true)
    (hc : db.clients.find? (fun x => x.email == jsToLower (jsTrim (b.email.getD ("")))) = some c) :
    (Invite.onRequestPost H pepper now g rawToken siteOrigin (some b) ip ua db).2.clients
      = db.clients.map (fun x =>
          if x.id == c.id then
            { x with
              first_name := if jsTrim (b.first_name.getD ("")) == "" then x.first_name
                            else jsTrim (b.first_name.getD (""))
              last_name := if jsTrim (b.last_name.getD ("")) == "" then x.last_name
                           else jsTrim (b.last_name.getD (""))
              mobile := match b.mobile with
                        | none => x.mobile
                        | some v => some v
              occupation := match b.occupation with
                            | none => x.occupation
                            | some v => some v
              locale := if b.locale.getD ("es") == "" then x.locale
                        else b.locale.getD ("es") }
          else x) := by
  rw [invite_run_existing hpepper hy hy0 hfn hln hem hloc hc,
    inviteAfterClient_clients]
  rfl

/-- Witness for the amended C7 at the fixture store (client with stored
mobile 555, invitation carrying an empty mobile string). -/
theorem claim7_client_merge_witness :
    (Invite.onRequestPost hashId ("p") 5 0 ("rawtok") none (some cInviteMobileEmpty)
        none none cDb).2.clients
      = cDb.clients.map (fun x =>
          if x.id == cClient.id then
            { x with
              first_name := if jsTrim (cInviteMobileEmpty.first_name.getD ("")) == "" then x.first_name
                            else jsTrim (cInviteMobileEmpty.first_name.getD (""))
              last_name := if jsTrim (cInviteMobileEmpty.last_name.getD ("")) == "" then x.last_name
                           else jsTrim (cInviteMobileEmpty.last_name.getD (""))
              mobile := match cInviteMobileEmpty.mobile with
                        | none => x.mobile
                        | some v => some v
              occupation := match cInviteMobileEmpty.occupation with
                            | none => x.occupation
                            | some v => some v
              locale := if cInviteMobileEmpty.locale.getD ("es") == "" then x.locale
                        else cInviteMobileEmpty.locale.getD ("es") }
          else x) :=
  claim7_client_merge hashId ("p") ("rawtok") none cInviteMobileEmpty 5 0 none none
    cDb cClient 2025 (by decide) rfl rfl rfl rfl rfl rfl rfl

theorem clientMerge_id (fn ln : String) (mo oc : Option String) (lo : String)
    (c : ClientRow) : (clientMerge fn ln mo oc lo c).id = c.id := rfl

theorem sessionLookup_fresh
    (H : String → String) (pepper rawToken : String) (db' : DB)
    (old : List IntakeTokenRow) (newTok : IntakeTokenRow)
    (h1 : db'.intake_tokens = old ++ [newTok])
    (hfresh : ∀ it ∈ old, (it.token_hash == H (rawToken ++ pepper)) = false)
    (hhash : newTok.token_hash = H (rawToken ++ pepper))
    (tr' : TaxReturnRow)
    (htr : db'.tax_returns.find? (fun x => x.id == newTok.tax_return_id) = some tr')
    (c' : ClientRow)
    (hcl : db'.clients.find? (fun x => x.id == tr'.client_id) = some c') :
    sessionLookup H pepper rawToken db' = some (newTok, tr', c') := by
  unfold sessionLookup
  dsimp only
  rw [h1, List.findSome?_append]
  have hnone : old.findSome? (fun it =>
      if it.token_hash == H (rawToken ++ pepper) then
        (db'.tax_returns.find? (fun tr => tr.id == it.tax_return_id)).bind (fun tr =>
          (db'.clients.find? (fun c => c.id == tr.client_id)).map (fun c => (it, tr, c)))
      else none) = none := by
    rw [List.findSome?_eq_none_iff]
    intro it hit
    rw [hfresh it hit]
    simp
  rw [hnone, Option.none_or]
  have hbeq : (newTok.token_hash == H (rawToken ++ pepper)) = true := beq_iff_eq.mpr hhash
  rw [List.findSome?_cons]
  rw [hbeq]
  simp only [if_true, htr, Option.some_bind, hcl, Option.map_some']

theorem session_ok
    {H : String → String} {pepper : String} {now : Int} {tok : String} {db : DB}
    {row : IntakeTokenRow} {tr : TaxReturnRow} {c : ClientRow} {e : Int}
    (hpepper : pepper ≠ "")
    (hfind : sessionLookup H pepper tok db = some (row, tr, c))
    (hrev : truthy row.revoked_at = false)
    (hexp : dateParse row.expires_at = some e)
    (hnow : now ≤ e)
    (hused : (row.one_time == 1 && truthy row.used_at) = false) :
    (Session.onRequestGet H pepper now (some tok) db).1
      = SessionRes.ok { tax_return_id := row.tax_return_id
                        tax_year := tr.tax_year
                        locale := c.locale
                        client_first_name := c.first_name
                        client_last_name := c.last_name
                        client_email := c.email
                        client_mobile := c.mobile
                        expires_at := row.expires_at
                        one_time := row.one_time == 1 } := by
  have hp : (pepper == "") = false := beq_eq_false_iff_ne.mpr hpepper
  unfold Session.onRequestGet
  rw [hp]
  simp only [Bool.false_eq_true, if_false]
  rw [hfind]
  dsimp only
  rw [hrev]
  simp only [Bool.false_eq_true, if_false]
  rw [hexp]
  dsimp only
  rw [if_neg (not_lt.mpr hnow), hused]
  simp only [Bool.false_eq_true, if_false]

theorem inviteAfterClient_found_parts
    {d : DB} {clientId : String} {taxYear : Int} {r : TaxReturnRow}
    (htr : d.tax_returns.find? (fun x => x.client_id == clientId && x.tax_year == taxYear)
      = some r)
    (now : Int) (g : Nat) (rawToken tokenHash expIso : String) (oneTime : Bool)
    (locale : String) (expiresInHours : Int) (siteOrigin : Option String)
    (ip ua : Option String) :
    (inviteAfterClient now g rawToken tokenHash expIso oneTime taxYear locale
        expiresInHours siteOrigin clientId ip ua d).1.taxReturnId? = some r.id
    ∧ (inviteAfterClient now g rawToken tokenHash expIso oneTime taxYear locale
        expiresInHours siteOrigin clientId ip ua d).2.tax_returns = d.tax_returns
    ∧ (inviteAfterClient now g rawToken tokenHash expIso oneTime taxYear locale
        expiresInHours siteOrigin clientId ip ua d).2.intake_tokens
      = d.intake_tokens ++
        [{ id := uuid g
           tax_return_id := r.id
           token_hash := tokenHash
           expires_at := expIso
           one_time := if oneTime then 1 else 0
           used_at := none
           revoked_at := none
           created_at := isoOfEpoch now }] := by
  rw [inviteAfterClient_found htr now g rawToken tokenHash expIso oneTime locale
    expiresInHours siteOrigin ip ua]
  exact ⟨rfl, rfl, rfl⟩

/-- C6: re-inviting an existing (client email, tax year) pair leaves the
tax_returns table unchanged — the unique pair invariant is preserved — yet
the call succeeds with the same return id and appends exactly one brand-new
token row, whose hash differs from every previously stored hash. -/
theorem claim6_reinvite_mints_fresh_token
    (H : String → String) (pepper rawToken : String) (siteOrigin : Option String)
    (b : InviteBody) (now : Int) (g : Nat) (ip ua : Option String)
    (db : DB) (c : ClientRow) (r : TaxReturnRow) (y : Int)
    (hpepper : pepper ≠ "")
    (hy : b.tax_year = some y)
    (hy0 : (y == 0) = false)
    (hfn : truthy b.first_name = true)
    (hln : truthy b.last_name = true)
    (hem : truthy b.email = true)
    (hloc : (b.locale.getD ("es") == "es" || b.locale.getD ("es") == "en") = true)
    (hc : db.clients.find? (fun x => x.email == jsToLower (jsTrim (b.email.getD ("")))) = some c)
    (htr : db.tax_returns.find? (fun x => x.client_id == c.id && x.tax_year == y) = some r)
    (hfresh : (db.intake_tokens.all
      (fun it => !(it.token_hash == H (rawToken ++ pepper)))) = true) :
    (Invite.onRequestPost H pepper now g rawToken siteOrigin (some b) ip ua db).1.taxReturnId?
        = some r.id
    ∧ (Invite.onRequestPost H pepper now g rawToken siteOrigin (some b) ip ua db).2.tax_returns
        = db.tax_returns
    ∧ (Invite.onRequestPost H pepper now g rawToken siteOrigin (some b) ip ua db).2.intake_tokens
        = db.intake_tokens ++
          [{ id := uuid g
             tax_return_id := r.id
             token_hash := H (rawToken ++ pepper)
             expires_at := isoOfEpoch (now + (b.expires_in_hours.getD 72) * 3600000)
             one_time := if b.one_time.getD true then 1 else 0
             used_at := none
             revoked_at := none
             created_at := isoOfEpoch now }]
    ∧ ((db.intake_tokens.all
      (fun it => !(it.token_hash == H (rawToken ++ pepper)))) = true) := by
  rw [invite_run_existing hpepper hy hy0 hfn hln hem hloc hc]
  obtain ⟨h1, h2, h3⟩ :=
    inviteAfterClient_found_parts
      (d := { db with clients := db.clients.map (fun x =>
          if x.id == c.id then
            clientMerge (jsTrim (b.first_name.getD (""))) (jsTrim (b.last_name.getD ("")))
              b.mobile b.occupation (b.locale.getD ("es")) x
          else x) })
      htr now g rawToken (H (rawToken ++ pepper))
      (isoOfEpoch (now + (b.expires_in_hours.getD 72) * 3600000))
      (b.one_time.getD true) (b.locale.getD ("es")) (b.expires_in_hours.getD 72)
      siteOrigin ip ua
  exact ⟨h1, h2, h3, hfresh⟩

/-- Witness for C6 at the fixture store, whose client and 2025 return already
exist; the stored token hash tokp differs from the fresh hash rawtokp. -/
theorem claim6_reinvite_mints_fresh_token_witness :
    (Invite.onRequestPost hashId ("p") 5 0 ("rawtok") none (some cInviteBody) none none cDb).1.taxReturnId?
        = some cTaxReturn.id
    ∧ (Invite.onRequestPost hashId ("p") 5 0 ("rawtok") none (some cInviteBody) none none cDb).2.tax_returns
        = cDb.tax_returns
    ∧ (Invite.onRequestPost hashId ("p") 5 0 ("rawtok") none (some cInviteBody) none none cDb).2.intake_tokens
        = cDb.intake_tokens ++
          [{ id := uuid 0
             tax_return_id := cTaxReturn.id
             token_hash := hashId ("rawtok" ++ "p")
             expires_at := isoOfEpoch (5 + (cInviteBody.expires_in_hours.getD 72) * 3600000)
             one_time := if cInviteBody.one_time.getD true then 1 else 0
             used_at := none
             revoked_at := none
             created_at := isoOfEpoch 5 }]
    ∧ ((cDb.intake_tokens.all
      (fun it => !(it.token_hash == hashId ("rawtok" ++ "p")))) = true) :=
  claim6_reinvite_mints_fresh_token hashId ("p") ("rawtok") none cInviteBody 5 0 none none
    cDb cClient cTaxReturn 2025
    (by decide) rfl rfl rfl rfl rfl rfl rfl rfl (by decide)

theorem sessionLookup_mk
    (H : String → String) (pepper rawToken : String)
    {cls : List ClientRow} {trs : List TaxReturnRow}
    {iks : List IntakeRow} {sps : List SpouseRow} {dps : List DependentRow}
    {aud : List AuditRow}
    (old : List IntakeTokenRow) (newTok : IntakeTokenRow)
    (hfresh : ∀ it ∈ old, (it.token_hash == H (rawToken ++ pepper)) = false)
    (hhash : newTok.token_hash = H (rawToken ++ pepper))
    {tr' : TaxReturnRow}
    (htr : trs.find? (fun x => x.id == newTok.tax_return_id) = some tr')
    {c' : ClientRow}
    (hcl : cls.find? (fun x => x.id == tr'.client_id) = some c') :
    sessionLookup H pepper rawToken (DB.mk cls trs (old ++ [newTok]) iks sps dps aud)
      = some (newTok, tr', c') :=
  sessionLookup_fresh H pepper rawToken (DB.mk cls trs (old ++ [newTok]) iks sps dps aud)
    old newTok rfl hfresh hhash tr' htr c' hcl

/-- C5: a freshly minted invitation token validates immediately: for every
valid invitation request (with a collision-free fresh hash and fresh UUIDs,
and a nonnegative expiry window), the invitation succeeds and presenting the
raw token to the session validator at the same instant succeeds and returns
the same tax-return id the issuer returned. -/
theorem claim5_minted_token_validates
    (H : String → String) (pepper rawToken : String) (siteOrigin : Option String)
    (b : InviteBody) (now : Int) (g : Nat) (ip ua : Option String)
    (db : DB) (y : Int)
    (hpepper : pepper ≠ "")
    (hy : b.tax_year = some y)
    (hy0 : (y == 0) = false)
    (hfn : truthy b.first_name = true)
    (hln : truthy b.last_name = true)
    (hem : truthy b.email = true)
    (hloc : (b.locale.getD ("es") == "es" || b.locale.getD ("es") == "en") = true)
    (hhours : 0 ≤ b.expires_in_hours.getD 72)
    (hfresh : ∀ it ∈ db.intake_tokens, (it.token_hash == H (rawToken ++ pepper)) = false)
    (hcuuid : ∀ x ∈ db.clients, ∀ n, x.id ≠ uuid n)
    (htruuid : ∀ x ∈ db.tax_returns, ∀ n, x.id ≠ uuid n)
    (htrcuuid : ∀ x ∈ db.tax_returns, ∀ n, x.client_id ≠ uuid n)
    (htrpw : db.tax_returns.Pairwise (fun a b => a.id ≠ b.id)) :
    ((Invite.onRequestPost H pepper now g rawToken siteOrigin (some b) ip ua db).1.taxReturnId?).isSome
        = true
    ∧ (Session.onRequestGet H pepper now (some rawToken)
        (Invite.onRequestPost H pepper now g rawToken siteOrigin (some b) ip ua db).2).1.taxReturnId?
      = (Invite.onRequestPost H pepper now g rawToken siteOrigin (some b) ip ua db).1.taxReturnId? := by
  have hT : now ≤ now + (b.expires_in_hours.getD 72) * 3600000 := by
    have h3 : 0 ≤ (b.expires_in_hours.getD 72) * 3600000 := by
      have h4 := mul_le_mul_of_nonneg_right hhours (show (0 : Int) ≤ 3600000 by decide)
      simpa using h4
    omega
  rcases hc : db.clients.find? (fun x => x.email == jsToLower (jsTrim (b.email.getD (""))))
    with _ | c
  · -- new client: the tax-return lookup by the fresh client uuid finds nothing
    rw [invite_run_new hpepper hy hy0 hfn hln hem hloc hc]
    have htr0 : ({ db with clients := db.clients ++
        [{ id := uuid g
           first_name := jsTrim (b.first_name.getD (""))
           last_name := jsTrim (b.last_name.getD (""))
           email := jsToLower (jsTrim (b.email.getD ("")))
           mobile := b.mobile
           occupation := b.occupation
           locale := b.locale.getD ("es")
           ssn_last4 := ("0000")
           created_at := isoOfEpoch now
           updated_at := isoOfEpoch now }] } : DB).tax_returns.find?
        (fun x => x.client_id == uuid g && x.tax_year == y) = none := by
      rw [List.find?_eq_none]
      intro x hx
      have hne := htrcuuid x hx g
      simp [hne]
    rw [inviteAfterClient_notFound htr0 now (g + 1) rawToken (H (rawToken ++ pepper))
      (isoOfEpoch (now + (b.expires_in_hours.getD 72) * 3600000)) (b.one_time.getD true)
      (b.locale.getD ("es")) (b.expires_in_hours.getD 72) siteOrigin ip ua]
    refine ⟨rfl, ?_⟩
    have htrS : (db.tax_returns ++
        [({ id := uuid (g + 1)
            client_id := uuid g
            tax_year := y
            status := ("invited")
            submitted_at := none
            created_at := isoOfEpoch now
            updated_at := isoOfEpoch now } : TaxReturnRow)]).find?
          (fun x => x.id == uuid (g + 1))
        = some ({ id := uuid (g + 1)
                  client_id := uuid g
                  tax_year := y
                  status := ("invited")
                  submitted_at := none
                  created_at := isoOfEpoch now
                  updated_at := isoOfEpoch now } : TaxReturnRow) := by
      rw [List.find?_append]
      rw [List.find?_eq_none.mpr (fun x hx => by
        have hne := htruuid x hx (g + 1)
        simp [hne])]
      rw [Option.none_or]
      simp [List.find?_cons]
    have hclS : (db.clients ++
        [({ id := uuid g
            first_name := jsTrim (b.first_name.getD (""))
            last_name := jsTrim (b.last_name.getD (""))
            email := jsToLower (jsTrim (b.email.getD ("")))
            mobile := b.mobile
            occupation := b.occupation
            locale := b.locale.getD ("es")
            ssn_last4 := ("0000")
            created_at := isoOfEpoch now
            updated_at := isoOfEpoch now } : ClientRow)]).find? (fun x => x.id == uuid g)
        = some ({ id := uuid g
                  first_name := jsTrim (b.first_name.getD (""))
                  last_name := jsTrim (b.last_name.getD (""))
                  email := jsToLower (jsTrim (b.email.getD ("")))
                  mobile := b.mobile
                  occupation := b.occupation
                  locale := b.locale.getD ("es")
                  ssn_last4 := ("0000")
                  created_at := isoOfEpoch now
                  updated_at := isoOfEpoch now } : ClientRow) := by
      rw [List.find?_append]
      rw [List.find?_eq_none.mpr (fun x hx => by
        have hne := hcuuid x hx g
        simp [hne])]
      rw [Option.none_or]
      simp [List.find?_cons]
    rw [session_ok hpepper
      (sessionLookup_mk H pepper rawToken db.intake_tokens
        ({ id := uuid (g + 1 + 1)
           tax_return_id := uuid (g + 1)
           token_hash := H (rawToken ++ pepper)
           expires_at := isoOfEpoch (now + (b.expires_in_hours.getD 72) * 3600000)
           one_time := if b.one_time.getD true then 1 else 0
           used_at := none
           revoked_at := none
           created_at := isoOfEpoch now } : IntakeTokenRow)
        hfresh rfl htrS hclS)
      rfl (dateParse_isoOfEpoch (now + (b.expires_in_hours.getD 72) * 3600000)) hT
      (Bool.and_false _)]
    rfl
  · -- existing client
    rw [invite_run_existing hpepper hy hy0 hfn hln hem hloc hc]
    rcases htr0 : db.tax_returns.find? (fun x => x.client_id == c.id && x.tax_year == y)
      with _ | r
    · -- client exists, return does not: a fresh return row is created
      have htr0M : ({ db with clients := db.clients.map (fun x =>
          if x.id == c.id then
            clientMerge (jsTrim (b.first_name.getD (""))) (jsTrim (b.last_name.getD ("")))
              b.mobile b.occupation (b.locale.getD ("es")) x
          else x) } : DB).tax_returns.find?
          (fun x => x.client_id == c.id && x.tax_year == y) = none := htr0
      rw [inviteAfterClient_notFound htr0M now g rawToken (H (rawToken ++ pepper))
        (isoOfEpoch (now + (b.expires_in_hours.getD 72) * 3600000)) (b.one_time.getD true)
        (b.locale.getD ("es")) (b.expires_in_hours.getD 72) siteOrigin ip ua]
      refine ⟨rfl, ?_⟩
      have htrS : (db.tax_returns ++
          [({ id := uuid g
              client_id := c.id
              tax_year := y
              status := ("invited")
              submitted_at := none
              created_at := isoOfEpoch now
              updated_at := isoOfEpoch now } : TaxReturnRow)]).find? (fun x => x.id == uuid g)
          = some ({ id := uuid g
                    client_id := c.id
                    tax_year := y
                    status := ("invited")
                    submitted_at := none
                    created_at := isoOfEpoch now
                    updated_at := isoOfEpoch now } : TaxReturnRow) := by
        rw [List.find?_append]
        rw [List.find?_eq_none.mpr (fun x hx => by
          have hne := htruuid x hx g
          simp [hne])]
        rw [Option.none_or]
        simp [List.find?_cons]
      have hcmem : c ∈ db.clients := List.mem_of_find?_eq_some hc
      have hfc : (db.clients.find? (fun x => x.id == c.id)).isSome = true :=
        List.find?_isSome.mpr ⟨c, hcmem, by simp⟩
      rcases Option.isSome_iff_exists.mp hfc with ⟨c0, hc0⟩
      have hmap : (db.clients.map (fun x =>
          if x.id == c.id then
            clientMerge (jsTrim (b.first_name.getD (""))) (jsTrim (b.last_name.getD ("")))
              b.mobile b.occupation (b.locale.getD ("es")) x
          else x)).find? (fun x => x.id == c.id)
          = some ((fun x =>
              if x.id == c.id then
                clientMerge (jsTrim (b.first_name.getD (""))) (jsTrim (b.last_name.getD ("")))
                  b.mobile b.occupation (b.locale.getD ("es")) x
              else x) c0) := by
        rw [List.find?_map]
        have hpc : ((fun x : ClientRow => x.id == c.id) ∘ (fun x =>
            if x.id == c.id then
              clientMerge (jsTrim (b.first_name.getD (""))) (jsTrim (b.last_name.getD ("")))
                b.mobile b.occupation (b.locale.getD ("es")) x
            else x)) = fun x : ClientRow => x.id == c.id := by
          funext x
          simp only [Function.comp]
          by_cases hx : (x.id == c.id) = true
          · rw [if_pos hx, clientMerge_id, hx]
          · rw [if_neg hx]
        rw [hpc, hc0, Option.map_some']
      rw [session_ok hpepper
        (sessionLookup_mk H pepper rawToken db.intake_tokens
          ({ id := uuid (g + 1)
             tax_return_id := uuid g
             token_hash := H (rawToken ++ pepper)
             expires_at := isoOfEpoch (now + (b.expires_in_hours.getD 72) * 3600000)
             one_time := if b.one_time.getD true then 1 else 0
             used_at := none
             revoked_at := none
             created_at := isoOfEpoch now } : IntakeTokenRow)
          hfresh rfl htrS hmap)
        rfl (dateParse_isoOfEpoch (now + (b.expires_in_hours.getD 72) * 3600000)) hT
        (Bool.and_false _)]
      rfl
    · -- client and return both exist
      have hrmem : r ∈ db.tax_returns := List.mem_of_find?_eq_some htr0
      have hrc : r.client_id = c.id := by
        have h := List.find?_some htr0
        rw [Bool.and_eq_true] at h
        exact beq_iff_eq.mp h.1
      have htr0M : ({ db with clients := db.clients.map (fun x =>
          if x.id == c.id then
            clientMerge (jsTrim (b.first_name.getD (""))) (jsTrim (b.last_name.getD ("")))
              b.mobile b.occupation (b.locale.getD ("es")) x
          else x) } : DB).tax_returns.find?
          (fun x => x.client_id == c.id && x.tax_year == y) = some r := htr0
      rw [inviteAfterClient_found htr0M now g rawToken (H (rawToken ++ pepper))
        (isoOfEpoch (now + (b.expires_in_hours.getD 72) * 3600000)) (b.one_time.getD true)
        (b.locale.getD ("es")) (b.expires_in_hours.getD 72) siteOrigin ip ua]
      refine ⟨rfl, ?_⟩
      have htrS : db.tax_returns.find? (fun x => x.id == r.id) = some r :=
        find?_eq_some_self (fun x : TaxReturnRow => x.id) htrpw hrmem
      have hcmem : c ∈ db.clients := List.mem_of_find?_eq_some hc
      have hfc : (db.clients.find? (fun x => x.id == r.client_id)).isSome = true :=
        List.find?_isSome.mpr ⟨c, hcmem, by rw [hrc]; simp⟩
      rcases Option.isSome_iff_exists.mp hfc with ⟨c0, hc0⟩
      have hmap : (db.clients.map (fun x =>
          if x.id == c.id then
            clientMerge (jsTrim (b.first_name.getD (""))) (jsTrim (b.last_name.getD ("")))
              b.mobile b.occupation (b.locale.getD ("es")) x
          else x)).find? (fun x => x.id == r.client_id)
          = some ((fun x =>
              if x.id == c.id then
                clientMerge (jsTrim (b.first_name.getD (""))) (jsTrim (b.last_name.getD ("")))
                  b.mobile b.occupation (b.locale.getD ("es")) x
              else x) c0) := by
        rw [List.find?_map]
        have hpc : ((fun x : ClientRow => x.id == r.client_id) ∘ (fun x =>
            if x.id == c.id then
              clientMerge (jsTrim (b.first_name.getD (""))) (jsTrim (b.last_name.getD ("")))
                b.mobile b.occupation (b.locale.getD ("es")) x
            else x)) = fun x : ClientRow => x.id == r.client_id := by
          funext x
          simp only [Function.comp]
          by_cases hx : (x.id == c.id) = true
          · rw [if_pos hx, clientMerge_id]
          · rw [if_neg hx]
        rw [hpc, hc0, Option.map_some']
      rw [session_ok hpepper
        (sessionLookup_mk H pepper rawToken db.intake_tokens
          ({ id := uuid g
             tax_return_id := r.id
             token_hash := H (rawToken ++ pepper)
             expires_at := isoOfEpoch (now + (b.expires_in_hours.getD 72) * 3600000)
             one_time := if b.one_time.getD true then 1 else 0
             used_at := none
             revoked_at := none
             created_at := isoOfEpoch now } : IntakeTokenRow)
          hfresh rfl htrS hmap)
        rfl (dateParse_isoOfEpoch (now + (b.expires_in_hours.getD 72) * 3600000)) hT
        (Bool.and_false _)]
      rfl

/-- Witness for C5: inviting into the empty store and validating the minted
raw token at the same instant. -/
theorem claim5_minted_token_validates_witness :
    ((Invite.onRequestPost hashId ("p") 5 0 ("rawtok") none (some cInviteBody) none none cDbEmpty).1.taxReturnId?).isSome
        = true
    ∧ (Session.onRequestGet hashId ("p") 5 (some ("rawtok"))
        (Invite.onRequestPost hashId ("p") 5 0 ("rawtok") none (some cInviteBody) none none cDbEmpty).2).1.taxReturnId?
      = (Invite.onRequestPost hashId ("p") 5 0 ("rawtok") none (some cInviteBody) none none cDbEmpty).1.taxReturnId? :=
  claim5_minted_token_validates hashId ("p") ("rawtok") none cInviteBody 5 0 none none
    cDbEmpty 2025 (by decide) rfl rfl rfl rfl rfl rfl (by decide)
    (by simp [cDbEmpty]) (by simp [cDbEmpty]) (by simp [cDbEmpty]) (by simp [cDbEmpty])
    (by simp [cDbEmpty])

end RB
